import Mathlib

/-!
Shallow embedding of the frame-execution and resource-upload pipeline of
`src/webrender/src/renderer.rs`.

Device calls (`Device` lives outside `src/`) are modelled as an event trace:
every call the renderer issues to the device or to the external-image handler
is recorded as an `Event`.  Rust panics (`panic!`, `expect`, `debug_assert!`,
out-of-bounds indexing) are modelled as `Except.error`; the trace accumulated
up to the panic is still returned, so that claims about what happened before a
fatal error can be stated.  Machine integers (`u32`, `usize`, `u8`) are
modelled as `Nat`; none of the embedded code can overflow in a way any claim
depends on.  `f32` colour and UV values are carried as opaque `Nat` tokens:
the renderer only moves them around, it never computes with them.
-/

namespace WR

/-- Native (OpenGL) texture ids, `device::TextureId`, modelled as `Nat`. -/
abbrev TextureId := Nat

/-- Modelled from the spec and the source's use of `webrender_traits::ColorF`:
an RGBA colour.  The renderer never computes with the components, so they are
opaque `Nat` tokens; `ColorF::to_array` is the identity in this model. -/
abbrev ColorF := Nat × Nat × Nat × Nat

/-- `webrender_traits::ImageFormat` (the variants named in renderer.rs). -/
inductive ImageFormat
  | Invalid
  | A8
  | RGB8
  | RGBA8
  | RG8
  | RGBAF32
deriving DecidableEq

/-- `device::TextureFilter` as used by renderer.rs. -/
inductive TextureFilter
  | Nearest
  | Linear
deriving DecidableEq

/-- `internal_types::RenderTargetMode` as used by renderer.rs (the module is
outside `src/`; only the variants renderer.rs constructs are modelled). -/
inductive RenderTargetMode
  | «None»
  | LayerRenderTarget (layer_count : Nat)
deriving DecidableEq

/-- `internal_types::TextureSampler` slots named in renderer.rs. -/
inductive TextureSampler
  | Color (i : Nat)
  | CacheA8
  | CacheRGBA8
  | Dither
  | Data16
  | Data32
  | Data64
  | Data128
  | Layers
  | RenderTasks
  | Geometry
  | ResourceRects
  | Gradients
  | SplitGeometry
deriving DecidableEq

/-- Modelled from the spec (webrender_traits is outside `src/`): the YUV
sample formats.  Three formats, matching the six `ps_yuv_image_*` program
pairs created in `Renderer::new` (3 formats x 2 colour spaces). -/
inductive YuvFormat
  | NV12
  | PlanarYCbCr
  | InterleavedYCbCr
deriving DecidableEq

/-- Modelled from the spec (webrender_traits is outside `src/`): the YUV
colour spaces (601 and 709 variants of the shader names). -/
inductive YuvColorSpace
  | Rec601
  | Rec709
deriving DecidableEq

/-- The Rust enum discriminant of a `YuvFormat` (`format as usize`). -/
def YuvFormat.toUsize : YuvFormat → Nat
  | .NV12 => 0
  | .PlanarYCbCr => 1
  | .InterleavedYCbCr => 2

/-- The Rust enum discriminant of a `YuvColorSpace` (`color_space as usize`). -/
def YuvColorSpace.toUsize : YuvColorSpace → Nat
  | .Rec601 => 0
  | .Rec709 => 1

/-- Modelled from the spec: `webrender_traits::YUV_FORMATS`, the array of all
YUV formats. -/
def YUV_FORMATS : List YuvFormat :=
  [.NV12, .PlanarYCbCr, .InterleavedYCbCr]

/-- Modelled from the spec: `webrender_traits::YUV_COLOR_SPACES`, the array of
all YUV colour spaces. -/
def YUV_COLOR_SPACES : List YuvColorSpace :=
  [.Rec601, .Rec709]

/-- `renderer::ImageBufferKind` (declared in renderer.rs itself). -/
inductive ImageBufferKind
  | Texture2D
  | TextureRect
  | TextureExternal
deriving DecidableEq

/-- The Rust enum discriminant of an `ImageBufferKind` (explicit in the
source: `Texture2D = 0`, `TextureRect = 1`, `TextureExternal = 2`). -/
def ImageBufferKind.toUsize : ImageBufferKind → Nat
  | .Texture2D => 0
  | .TextureRect => 1
  | .TextureExternal => 2

/-- `renderer::BlendMode`. -/
inductive BlendMode
  | «None»
  | Alpha
  | PremultipliedAlpha
  | Subpixel (color : ColorF)
deriving DecidableEq

/-- `util::TransformedRectKind` as used by renderer.rs. -/
inductive TransformedRectKind
  | AxisAligned
  | Complex
deriving DecidableEq

/-- `webrender_traits::ExternalImageType` (variants matched in renderer.rs). -/
inductive ExternalImageType
  | Texture2DHandle
  | TextureRectHandle
  | TextureExternalHandle
  | ExternalBuffer
deriving DecidableEq

/-- `webrender_traits::ExternalImageData`: the id, channel index and type of
an application-supplied external image (fields read by renderer.rs). -/
structure ExternalImageData where
  id : Nat
  channel_index : Nat
  image_type : ExternalImageType
deriving DecidableEq

/-- `webrender_traits::ImageData` (the variants matched in renderer.rs;
`Blob` stands for every variant that is neither `Raw` nor `External`). -/
inductive ImageData
  | Raw (bytes : List Nat)
  | External (image : ExternalImageData)
  | Blob (token : Nat)
deriving DecidableEq

/-- `renderer::ExternalImageSource` (declared in renderer.rs). -/
inductive ExternalImageSource
  | RawData (bytes : List Nat)
  | NativeTexture (handle : Nat)
deriving DecidableEq

/-- `renderer::ExternalImage` (declared in renderer.rs): UV rectangle plus the
source returned by a lock call. -/
structure ExternalImage where
  u0 : Nat
  v0 : Nat
  u1 : Nat
  v1 : Nat
  source : ExternalImageSource

/-- The `renderer::ExternalImageHandler` capability.  `lock` is modelled as a
pure query from (id, channel) to the returned `ExternalImage`; the lock and
unlock calls themselves are recorded in the event trace. -/
abbrev ExternalImageHandler := Nat → Nat → ExternalImage

/-- One call the renderer issues to the device or to the external-image
handler.  Each constructor corresponds to one method of the capability
interface consumed by renderer.rs. -/
inductive Event
  | create_texture_id (id : TextureId) (format : ImageFormat)
  | init_texture (id : TextureId) (width height : Nat) (format : ImageFormat)
      (filter : TextureFilter) (mode : RenderTargetMode) (data : Option (List Nat))
  | resize_texture (id : TextureId) (width height : Nat) (format : ImageFormat)
      (filter : TextureFilter) (mode : RenderTargetMode)
  | update_texture (id : TextureId) (x y width height : Nat)
      (stride : Option Nat) (data : List Nat)
  | deinit_texture (id : TextureId)
  | lock (id channel : Nat)
  | unlock (id channel : Nat)
  | bind_texture (sampler : TextureSampler) (id : TextureId)
  | bind_yuv_texture (sampler : TextureSampler) (id : TextureId)
  | update_sampler_f32 (sampler : TextureSampler) (len : Nat)
  | update_sampler_u8 (sampler : TextureSampler) (len : Nat)
  | clear_target (color : Option ColorF) (depth : Option Nat)
  | draw (program : String) (blend : BlendMode) (instance_count : Nat)
  | flush
deriving DecidableEq

/-- True for `create_texture_id` events (fresh native texture allocation). -/
def Event.isCreateTexture : Event → Bool
  | .create_texture_id _ _ => true
  | _ => false

/-- True for `create_texture_id` events allocating a texture of the given
format. -/
def Event.createsFormat (fmt : ImageFormat) : Event → Bool
  | .create_texture_id _ f => f = fmt
  | _ => false

/-- True for `clear_target` events. -/
def Event.isClearTarget : Event → Bool
  | .clear_target _ _ => true
  | _ => false

/-- True for handler `lock` events. -/
def Event.isLock : Event → Bool
  | .lock _ _ => true
  | _ => false

/-- True for handler `unlock` events. -/
def Event.isUnlock : Event → Bool
  | .unlock _ _ => true
  | _ => false

/-- The texture id an `init_texture` event writes to, if any. -/
def Event.initTarget : Event → Option TextureId
  | .init_texture id _ _ _ _ _ _ => some id
  | _ => none

/-- Whether an `Except` result is a success. -/
def isOk {ε α : Type} : Except ε α → Bool
  | .ok _ => true
  | .error _ => false

/-- `webrender_traits::DeviceUintRect` flattened to its four components. -/
structure DeviceUintRect where
  x : Nat
  y : Nat
  width : Nat
  height : Nat
deriving DecidableEq

/-- `internal_types::TextureUpdateOp` (the module is outside `src/`; the
variants and their fields are exactly those destructured by
`Renderer::update_texture_cache`). -/
inductive TextureUpdateOp
  | Create (width height : Nat) (format : ImageFormat) (filter : TextureFilter)
      (mode : RenderTargetMode) (data : Option ImageData)
  | Grow (width height : Nat) (format : ImageFormat) (filter : TextureFilter)
      (mode : RenderTargetMode)
  | Update (page_pos_x page_pos_y width height : Nat) (data : List Nat)
      (stride : Option Nat) (offset : Nat)
  | UpdateForExternalBuffer (rect : DeviceUintRect) (id channel_index : Nat)
      (stride : Option Nat) (offset : Nat)
  | Free
deriving DecidableEq

/-- One texture-cache mutation: a cache slot index (`CacheTextureId`) plus the
operation applied to it. -/
structure TextureUpdate where
  id : Nat
  op : TextureUpdateOp
deriving DecidableEq

/-- `internal_types::TextureUpdateList`: the queued cache mutations carried by
one `NewFrame` message. -/
structure TextureUpdateList where
  updates : List TextureUpdate
deriving DecidableEq

/-- One GPU record of the resource-rectangle data category; deferred resolves
patch its UV corners in place. -/
structure ResourceRect where
  uv0 : Nat × Nat
  uv1 : Nat × Nat
deriving DecidableEq

/-- `ImageProperties` as read by `update_deferred_resolves`: only the optional
external-image descriptor is consumed. -/
structure ImageProperties where
  external_image : Option ExternalImageData
deriving DecidableEq

/-- One deferred-resolve record of a `Frame`. -/
structure DeferredResolve where
  image_properties : ImageProperties
  resource_address : Nat
deriving DecidableEq

/-- `internal_types::SourceTexture` (the variants matched by
`Renderer::resolve_source_texture`). -/
inductive SourceTexture
  | Invalid
  | WebGL (id : Nat)
  | External (id : Nat) (channel_index : Nat)
  | TextureCache (index : Nat)
deriving DecidableEq

/-- `tiling::AlphaBatchKind` (the module is outside `src/`; the variants are
exactly those matched in `Renderer::submit_batch`). -/
inductive AlphaBatchKind
  | Composite
  | HardwareComposite
  | SplitComposite
  | Blend
  | Rectangle
  | TextRun
  | Image (buffer_kind : ImageBufferKind)
  | YuvImage (buffer_kind : ImageBufferKind) (format : YuvFormat)
      (color_space : YuvColorSpace)
  | BorderCorner
  | BorderEdge
  | AlignedGradient
  | AngleGradient
  | RadialGradient
  | BoxShadow
  | CacheImage
deriving DecidableEq

/-- The key of a primitive batch.  `tiling` is outside `src/`; the fields are
those read by `submit_batch` (`flags.transform_kind()` and
`flags.needs_clipping()` flattened to plain fields, and the `colors` array of
`BatchTextures` as a list). -/
structure BatchKey where
  kind : AlphaBatchKind
  blend_mode : BlendMode
  textures : List SourceTexture
  transform_kind : TransformedRectKind
  needs_clipping : Bool
deriving DecidableEq

/-- `tiling::PrimitiveBatch`: a key plus instance data (instances are opaque
tokens; only their count reaches the draw call). -/
structure PrimitiveBatch where
  key : BatchKey
  instances : List Nat
deriving DecidableEq

/-- `tiling::AlphaRenderTarget`.  `Renderer::draw_alpha_target` is entirely
commented out in the source, so no field of the target is ever read. -/
structure AlphaRenderTarget where
  token : Nat
deriving DecidableEq

/-- `tiling::ColorRenderTarget`: the opaque and alpha batch lists of its
`alpha_batcher.batch_list`, which are the only fields the live code reads. -/
structure ColorRenderTarget where
  opaque_batches : List PrimitiveBatch
  alpha_batches : List PrimitiveBatch
deriving DecidableEq

/-- `tiling::RenderTargetKind`. -/
inductive RenderTargetKind
  | Color
  | Alpha
deriving DecidableEq

/-- Modelled from the spec: a `tiling::RenderPass`.  It carries the target
lists, whether it is the final (framebuffer) pass, flags saying whether it
needs a colour and/or alpha render surface (`needs_render_target_kind`), the
required layered sub-target counts (`required_target_count`), and the target
texture ids assigned by the execution loop. -/
structure Pass where
  is_framebuffer : Bool
  needs_color : Bool
  needs_alpha : Bool
  color_target_count : Nat
  alpha_target_count : Nat
  color_targets : List ColorRenderTarget
  alpha_targets : List AlphaRenderTarget
  color_texture_id : Option TextureId
  alpha_texture_id : Option TextureId
deriving DecidableEq

/-- `RenderPass::needs_render_target_kind`, modelled from the spec as a flag
per kind. -/
def Pass.needs_render_target_kind (p : Pass) : RenderTargetKind → Bool
  | .Color => p.needs_color
  | .Alpha => p.needs_alpha

/-- `RenderPass::required_target_count`, modelled from the spec as a stored
count per kind. -/
def Pass.required_target_count (p : Pass) : RenderTargetKind → Nat
  | .Color => p.color_target_count
  | .Alpha => p.alpha_target_count

/-- `tiling::Frame`: the fields read and written by renderer.rs.  The GPU data
categories other than the resource rectangles are lists of opaque record
tokens. -/
structure Frame where
  window_size : Nat × Nat
  background_color : Option ColorF
  cache_size : Nat × Nat
  passes : List Pass
  deferred_resolves : List DeferredResolve
  gpu_data16 : List Nat
  gpu_data32 : List Nat
  gpu_data64 : List Nat
  gpu_data128 : List Nat
  gpu_geometry : List Nat
  gpu_resource_rects : List ResourceRect
  layer_texture_data : List Nat
  render_task_data : List Nat
  gpu_split_geometry : List Nat
  gpu_gradient_data : List Nat
deriving DecidableEq

/-- `internal_types::RendererFrame`: the payload of a `NewFrame` message.  The
pipeline-epoch map is an association list; `frame` is the optional tile frame
to draw. -/
structure RendererFrame where
  pipeline_epoch_map : List (Nat × Nat)
  layers_bouncing_back : List Nat
  frame : Option Frame
deriving DecidableEq

/-- `internal_types::ResultMsg`: the two message kinds drained from the result
channel by `Renderer::update` (shader paths are opaque tokens). -/
inductive ResultMsg
  | NewFrame (frame : RendererFrame) (texture_update_list : TextureUpdateList)
  | RefreshShader (path : Nat)
deriving DecidableEq

/-- `device::Program`, reduced to the shader name it was created from. -/
structure Program where
  name : String
deriving DecidableEq

/-- `renderer::ProgramPair`: the (axis-aligned, arbitrary-transform) pair
produced by the `create_programs!` macro. -/
structure ProgramPair where
  aligned : Program
  transform : Program
deriving DecidableEq

/-- `ProgramPair::get`. -/
def ProgramPair.get (p : ProgramPair) : TransformedRectKind → Program
  | .AxisAligned => p.aligned
  | .Complex => p.transform

/-- The `create_program!` macro: one program compiled from a shader name. -/
def create_program (shader : String) : Program := ⟨shader⟩

/-- The `create_programs!` macro: a base program together with its
`_transform` variant. -/
def create_programs (shader : String) : ProgramPair :=
  ⟨⟨shader⟩, ⟨shader ++ "_transform"⟩⟩

/-- The mutable state of `renderer::Renderer` that the embedded code reads or
writes, plus a device allocation counter (`next_texture_id`) standing for the
device's supply of fresh native texture ids. -/
structure Renderer where
  pending_texture_updates : List TextureUpdateList
  pending_shader_updates : List Nat
  current_frame : Option RendererFrame
  pipeline_epoch_map : List (Nat × Nat)
  cache_texture_id_map : List TextureId
  color_render_targets : List TextureId
  alpha_render_targets : List TextureId
  external_images : List ((Nat × Nat) × TextureId)
  external_image_handler : Option ExternalImageHandler
  enable_dithering : Bool
  dither_matrix_texture_id : Option TextureId
  clear_framebuffer : Bool
  clear_color : ColorF
  dummy_cache_texture_id : TextureId
  dummy_cache_texture_a8_id : TextureId
  next_texture_id : TextureId

/-! ## Constants and shader registry -/

/-- `renderer::MAX_VERTEX_TEXTURE_WIDTH`. -/
def MAX_VERTEX_TEXTURE_WIDTH : Nat := 1024

/-- `renderer::DUMMY_RGBA8_ID`. -/
def DUMMY_RGBA8_ID : Nat := 2

/-- `renderer::DUMMY_A8_ID`. -/
def DUMMY_A8_ID : Nat := 3

/-- `renderer::DITHER_ID`. -/
def DITHER_ID : Nat := 4

/-- `device::RGBA_STRIDE` (the device module is outside `src/`): channels per
RGBA texel. -/
def RGBA_STRIDE : Nat := 4

/-- Modelled from the spec: the `device::VECS_PER_*` constants (texels per
record of each GPU data category) live in the missing device module.  The
exact values are immaterial to every claim proved below; representative
values are used. -/
def VECS_PER_DATA_16 : Nat := 1

/-- Modelled from the spec: see `VECS_PER_DATA_16`. -/
def VECS_PER_DATA_32 : Nat := 2

/-- Modelled from the spec: see `VECS_PER_DATA_16`. -/
def VECS_PER_DATA_64 : Nat := 4

/-- Modelled from the spec: see `VECS_PER_DATA_16`. -/
def VECS_PER_DATA_128 : Nat := 8

/-- Modelled from the spec: see `VECS_PER_DATA_16`. -/
def VECS_PER_PRIM_GEOM : Nat := 2

/-- Modelled from the spec: see `VECS_PER_DATA_16`. -/
def VECS_PER_RESOURCE_RECTS : Nat := 1

/-- Modelled from the spec: see `VECS_PER_DATA_16`. -/
def VECS_PER_LAYER : Nat := 13

/-- Modelled from the spec: see `VECS_PER_DATA_16`. -/
def VECS_PER_RENDER_TASK : Nat := 3

/-- Modelled from the spec: see `VECS_PER_DATA_16`. -/
def VECS_PER_SPLIT_GEOM : Nat := 3

/-- Modelled from the spec: see `VECS_PER_DATA_16`. -/
def VECS_PER_GRADIENT_DATA : Nat := 520

/-- Modelled from the spec (gpu_store.rs is outside `src/`): the items per
pseudo-texture row for the vertex-data layout, derived from the texture width
`MAX_VERTEX_TEXTURE_WIDTH - MAX_VERTEX_TEXTURE_WIDTH % texels_per_item`. -/
def itemsPerRowVertex (texels_per_item : Nat) : Nat :=
  (MAX_VERTEX_TEXTURE_WIDTH - MAX_VERTEX_TEXTURE_WIDTH % texels_per_item)
    / texels_per_item

/-- Modelled from the spec (gpu_store.rs is outside `src/`): the gradient
layout's texture width is half the texels of one record, so fewer than one
record fits per row and the integer items-per-row is zero.  This is the case
the `items_per_row != 0` guard of `GpuDataTexture::init` protects. -/
def gradientItemsPerRow : Nat := 0

/-- `Renderer::get_yuv_shader_index`. -/
def get_yuv_shader_index (buffer_kind : ImageBufferKind) (format : YuvFormat)
    (color_space : YuvColorSpace) : Nat :=
  (buffer_kind.toUsize * YUV_FORMATS.length + format.toUsize)
    * YUV_COLOR_SPACES.length + color_space.toUsize

/-- Second definition, following the spec's words: the flattened row-major
YUV variant index `(bufferKind * formatCount + format) * colorSpaceCount +
colorSpace` where formatCount and colorSpaceCount are the numbers of YUV
formats and colour spaces. -/
def specYuvVariantIndex (bufferKind format colorSpace formatCount colorSpaceCount : Nat) : Nat :=
  (bufferKind * formatCount + format) * colorSpaceCount + colorSpace

/-- The `ps_yuv_image` program-pair vector built in `Renderer::new`. -/
def ps_yuv_image : List ProgramPair :=
  [create_programs "ps_yuv_image_nv12_601",
   create_programs "ps_yuv_image_planar_601",
   create_programs "ps_yuv_image_interleaved_601",
   create_programs "ps_yuv_image_nv12_709",
   create_programs "ps_yuv_image_planar_709",
   create_programs "ps_yuv_image_interleaved_709"]

/-- `ps_rectangle` program pair. -/
def ps_rectangle : ProgramPair := create_programs "ps_rectangle"

/-- `ps_rectangle_clip` program pair. -/
def ps_rectangle_clip : ProgramPair := create_programs "ps_rectangle_clip"

/-- `ps_text_run` program pair. -/
def ps_text_run : ProgramPair := create_programs "ps_text_run"

/-- `ps_text_run_subpixel` program pair. -/
def ps_text_run_subpixel : ProgramPair := create_programs "ps_text_run_subpixel"

/-- `ps_image` program pair. -/
def ps_image : ProgramPair := create_programs "ps_image"

/-- `ps_border_corner` program pair. -/
def ps_border_corner : ProgramPair := create_programs "ps_border_corner"

/-- `ps_border_edge` program pair. -/
def ps_border_edge : ProgramPair := create_programs "ps_border_edge"

/-- `ps_gradient` pair: the dithered variant when dithering is enabled. -/
def ps_gradient (enable_dithering : Bool) : ProgramPair :=
  create_programs (if enable_dithering then "ps_gradient_dither" else "ps_gradient")

/-- `ps_angle_gradient` pair, dithering-dependent. -/
def ps_angle_gradient (enable_dithering : Bool) : ProgramPair :=
  create_programs (if enable_dithering then "ps_angle_gradient_dither" else "ps_angle_gradient")

/-- `ps_radial_gradient` pair, dithering-dependent. -/
def ps_radial_gradient (enable_dithering : Bool) : ProgramPair :=
  create_programs (if enable_dithering then "ps_radial_gradient_dither" else "ps_radial_gradient")

/-- `ps_box_shadow` program pair. -/
def ps_box_shadow : ProgramPair := create_programs "ps_box_shadow"

/-- `ps_cache_image` program pair. -/
def ps_cache_image : ProgramPair := create_programs "ps_cache_image"

/-- `ps_blend` single program. -/
def ps_blend : Program := create_program "ps_blend"

/-- `ps_hw_composite` single program (shader name `ps_hardware_composite`). -/
def ps_hw_composite : Program := create_program "ps_hardware_composite"

/-- `ps_split_composite` single program. -/
def ps_split_composite : Program := create_program "ps_split_composite"

/-- `ps_composite` single program. -/
def ps_composite : Program := create_program "ps_composite"

/-! ## GPU data texture packing (`GpuDataTexture::init`) -/

/-- The padding loop of `GpuDataTexture::init`:
`while data.len() % items_per_row != 0 { data.push(T::default()) }` guarded by
`items_per_row != 0`.  Written in closed form; `padData_loop_eq` below proves
it satisfies the loop's defining equation. -/
def padData {α : Type} (items_per_row : Nat) (defaultItem : α) (data : List α) : List α :=
  if items_per_row = 0 then data
  else data ++ List.replicate
    ((items_per_row - data.length % items_per_row) % items_per_row) defaultItem

/-- `GpuDataTexture::init`, generic over the layout's image format and
items-per-row and over the record type: skip empty data, pad to a whole
number of rows, then upload through the sampler.  The `unimplemented!()` arm
for other image formats is an error. -/
def GpuDataTexture_init {α : Type} (image_format : ImageFormat)
    (sampler : TextureSampler) (items_per_row : Nat) (defaultItem : α)
    (data : List α) (size : Nat) : List Event × Except String (List α) :=
  if data.isEmpty then ([], .ok data)
  else
    let data := padData items_per_row defaultItem data
    match image_format with
    | .RGBAF32 => ([Event.update_sampler_f32 sampler (data.length * size)], .ok data)
    | .RGBA8 => ([Event.update_sampler_u8 sampler (data.length * size)], .ok data)
    | _ => ([], .error "unimplemented image format")

/-- `GpuDataTextures::init_frame`: run `GpuDataTexture::init` on the ten data
categories of the frame, in source order, accumulating the upload events and
the padded arrays (the source pads the frame's vectors in place). -/
def init_frame (f : Frame) : Except String (Frame × List Event) :=
  match GpuDataTexture_init .RGBAF32 .Data16 (itemsPerRowVertex VECS_PER_DATA_16)
      0 f.gpu_data16 (VECS_PER_DATA_16 * RGBA_STRIDE) with
  | (_, .error e) => .error e
  | (e1, .ok d16) =>
  match GpuDataTexture_init .RGBAF32 .Data32 (itemsPerRowVertex VECS_PER_DATA_32)
      0 f.gpu_data32 (VECS_PER_DATA_32 * RGBA_STRIDE) with
  | (_, .error e) => .error e
  | (e2, .ok d32) =>
  match GpuDataTexture_init .RGBAF32 .Data64 (itemsPerRowVertex VECS_PER_DATA_64)
      0 f.gpu_data64 (VECS_PER_DATA_64 * RGBA_STRIDE) with
  | (_, .error e) => .error e
  | (e3, .ok d64) =>
  match GpuDataTexture_init .RGBAF32 .Data128 (itemsPerRowVertex VECS_PER_DATA_128)
      0 f.gpu_data128 (VECS_PER_DATA_128 * RGBA_STRIDE) with
  | (_, .error e) => .error e
  | (e4, .ok d128) =>
  match GpuDataTexture_init .RGBAF32 .Geometry (itemsPerRowVertex VECS_PER_PRIM_GEOM)
      0 f.gpu_geometry (VECS_PER_PRIM_GEOM * RGBA_STRIDE) with
  | (_, .error e) => .error e
  | (e5, .ok geom) =>
  match GpuDataTexture_init .RGBAF32 .ResourceRects (itemsPerRowVertex VECS_PER_RESOURCE_RECTS)
      ⟨(0, 0), (0, 0)⟩ f.gpu_resource_rects (VECS_PER_RESOURCE_RECTS * RGBA_STRIDE) with
  | (_, .error e) => .error e
  | (e6, .ok rects) =>
  match GpuDataTexture_init .RGBAF32 .Layers (itemsPerRowVertex VECS_PER_LAYER)
      0 f.layer_texture_data (VECS_PER_LAYER * RGBA_STRIDE) with
  | (_, .error e) => .error e
  | (e7, .ok layers) =>
  match GpuDataTexture_init .RGBAF32 .RenderTasks (itemsPerRowVertex VECS_PER_RENDER_TASK)
      0 f.render_task_data (VECS_PER_RENDER_TASK * RGBA_STRIDE) with
  | (_, .error e) => .error e
  | (e8, .ok tasks) =>
  match GpuDataTexture_init .RGBAF32 .SplitGeometry (itemsPerRowVertex VECS_PER_SPLIT_GEOM)
      0 f.gpu_split_geometry (VECS_PER_SPLIT_GEOM * RGBA_STRIDE) with
  | (_, .error e) => .error e
  | (e9, .ok split) =>
  match GpuDataTexture_init .RGBA8 .Gradients gradientItemsPerRow
      0 f.gpu_gradient_data (VECS_PER_GRADIENT_DATA * RGBA_STRIDE) with
  | (_, .error e) => .error e
  | (e10, .ok grad) =>
    .ok ({ f with gpu_data16 := d16, gpu_data32 := d32, gpu_data64 := d64,
                  gpu_data128 := d128, gpu_geometry := geom,
                  gpu_resource_rects := rects, layer_texture_data := layers,
                  render_task_data := tasks, gpu_split_geometry := split,
                  gpu_gradient_data := grad },
          e1 ++ e2 ++ e3 ++ e4 ++ e5 ++ e6 ++ e7 ++ e8 ++ e9 ++ e10)

/-! ## Result channel (`Renderer::update`) -/

/-- Insert into an association list, replacing an existing binding for the key
(the behaviour of `HashMap::insert`). -/
def insertAssocNat (m : List (Nat × Nat)) (k v : Nat) : List (Nat × Nat) :=
  if m.any (fun kv => kv.1 = k) then
    m.map (fun kv => if kv.1 = k then (k, v) else kv)
  else
    m ++ [(k, v)]

/-- Processing of one drained `ResultMsg` inside the `try_recv` loop of
`Renderer::update`: a `NewFrame` pushes its texture-update list, merges the
frame's pipeline epochs, and replaces the current frame; a `RefreshShader`
pushes the path. -/
def processResultMsg (r : Renderer) : ResultMsg → Renderer
  | .NewFrame frame texture_update_list =>
    { r with
      pending_texture_updates := r.pending_texture_updates ++ [texture_update_list],
      pipeline_epoch_map :=
        frame.pipeline_epoch_map.foldl
          (fun m pe => insertAssocNat m pe.1 pe.2) r.pipeline_epoch_map,
      current_frame := some frame }
  | .RefreshShader path =>
    { r with pending_shader_updates := r.pending_shader_updates ++ [path] }

/-- `Renderer::update`: drain the given sequence of currently-available result
messages in order. -/
def Renderer.update (r : Renderer) (msgs : List ResultMsg) : Renderer :=
  msgs.foldl processResultMsg r

/-! ## Texture cache updates (`Renderer::update_texture_cache`) -/

/-- The data-initialisation part of `TextureUpdateOp::Create` handling (after
the cache slot's native texture id has been resolved). -/
def createData (r : Renderer) (texture_id : TextureId) (width height : Nat)
    (format : ImageFormat) (filter : TextureFilter) (mode : RenderTargetMode) :
    Option ImageData → List Event × Except String Unit
  | none =>
    ([Event.init_texture texture_id width height format filter mode none], .ok ())
  | some (.Raw raw) =>
    ([Event.init_texture texture_id width height format filter mode (some raw)], .ok ())
  | some (.External ext) =>
    match ext.image_type with
    | .ExternalBuffer =>
      match r.external_image_handler with
      | none => ([], .error "Found external image, but no handler set!")
      | some handler =>
        match (handler ext.id ext.channel_index).source with
        | .RawData raw =>
          ([Event.lock ext.id ext.channel_index,
            Event.init_texture texture_id width height format filter mode (some raw),
            Event.unlock ext.id ext.channel_index], .ok ())
        | .NativeTexture _ =>
          ([Event.lock ext.id ext.channel_index], .error "No external buffer found")
    | _ =>
      ([], .error "External texture handle should not use TextureUpdateOp Create.")
  | some (.Blob _) =>
    ([], .error "No suitable image buffer for TextureUpdateOp Create.")

/-- One iteration of the update loop in `Renderer::update_texture_cache`:
apply a single `TextureUpdate` to the renderer, producing the device events
issued and either the updated renderer or the panic message. -/
def applyUpdate (r : Renderer) (u : TextureUpdate) :
    List Event × Except String Renderer :=
  match u.op with
  | .Create width height format filter mode data =>
    let step :
        Renderer × List Event :=
      if r.cache_texture_id_map.length = u.id then
        let texture_id := r.next_texture_id
        ({ r with next_texture_id := texture_id + 1,
                  cache_texture_id_map := r.cache_texture_id_map ++ [texture_id] },
         [Event.create_texture_id texture_id format])
      else
        (r, [])
    let r1 := step.1
    let evs1 := step.2
    match r1.cache_texture_id_map[u.id]? with
    | none => (evs1, .error "index out of bounds")
    | some texture_id =>
      let res := createData r1 texture_id width height format filter mode data
      (evs1 ++ res.1,
       match res.2 with
       | .ok _ => .ok r1
       | .error e => .error e)
  | .Grow width height format filter mode =>
    match r.cache_texture_id_map[u.id]? with
    | none => ([], .error "index out of bounds")
    | some texture_id =>
      ([Event.resize_texture texture_id width height format filter mode], .ok r)
  | .Update page_pos_x page_pos_y width height data stride offset =>
    match r.cache_texture_id_map[u.id]? with
    | none => ([], .error "index out of bounds")
    | some texture_id =>
      -- `&data[offset..]` panics when the start index exceeds the length,
      -- before the device call is issued
      if offset ≤ data.length then
        ([Event.update_texture texture_id page_pos_x page_pos_y width height
            stride (data.drop offset)], .ok r)
      else
        ([], .error "range start index out of range for slice")
  | .UpdateForExternalBuffer rect id channel_index stride offset =>
    match r.external_image_handler with
    | none => ([], .error "Found external image, but no handler set!")
    | some handler =>
      match r.cache_texture_id_map[u.id]? with
      | none => ([], .error "index out of bounds")
      | some cached_id =>
        match (handler id channel_index).source with
        | .RawData data =>
          -- `&data[offset..]` panics when the start index exceeds the locked
          -- buffer's length, before the device write and before the unlock
          if offset ≤ data.length then
            ([Event.lock id channel_index,
              Event.update_texture cached_id rect.x rect.y rect.width rect.height
                stride (data.drop offset),
              Event.unlock id channel_index], .ok r)
          else
            ([Event.lock id channel_index],
             .error "range start index out of range for slice")
        | .NativeTexture _ =>
          ([Event.lock id channel_index], .error "No external buffer found")
  | .Free =>
    match r.cache_texture_id_map[u.id]? with
    | none => ([], .error "index out of bounds")
    | some texture_id =>
      ([Event.deinit_texture texture_id], .ok r)

/-- Apply a list of texture updates in order, stopping at the first panic but
keeping the trace accumulated so far. -/
def applyUpdates (r : Renderer) : List TextureUpdate → List Event × Except String Renderer
  | [] => ([], .ok r)
  | u :: us =>
    let step := applyUpdate r u
    match step.2 with
    | .error e => (step.1, .error e)
    | .ok r1 =>
      let rest := applyUpdates r1 us
      (step.1 ++ rest.1, rest.2)

/-- Apply a list of texture-update lists (the drained message batches) in
arrival order. -/
def applyUpdateLists (r : Renderer) : List TextureUpdateList → List Event × Except String Renderer
  | [] => ([], .ok r)
  | l :: ls =>
    let step := applyUpdates r l.updates
    match step.2 with
    | .error e => (step.1, .error e)
    | .ok r1 =>
      let rest := applyUpdateLists r1 ls
      (step.1 ++ rest.1, rest.2)

/-- `Renderer::update_texture_cache`: take the pending update lists
(`mem::replace` with an empty vector) and apply them all in arrival order. -/
def update_texture_cache (r : Renderer) : List Event × Except String Renderer :=
  applyUpdateLists { r with pending_texture_updates := [] }
    r.pending_texture_updates

/-! ## External images and deferred resolves -/

/-- Lookup in the (external image id, channel) to native-texture map
(`HashMap::get`). -/
def lookupExt (m : List ((Nat × Nat) × TextureId)) (k : Nat × Nat) : Option TextureId :=
  (m.find? (fun kv => kv.1 = k)).map (·.2)

/-- Insert into the external-image map, replacing an existing binding for the
key (`HashMap::insert`). -/
def insertExt (m : List ((Nat × Nat) × TextureId)) (k : Nat × Nat) (v : TextureId) :
    List ((Nat × Nat) × TextureId) :=
  if m.any (fun kv => kv.1 = k) then
    m.map (fun kv => if kv.1 = k then (k, v) else kv)
  else
    m ++ [(k, v)]

/-- The keys of the external-image map. -/
def extKeys (m : List ((Nat × Nat) × TextureId)) : List (Nat × Nat) :=
  m.map (·.1)

/-- `Renderer::resolve_source_texture`: map a `SourceTexture` to a native
texture id; unresolved external images and out-of-bounds cache indices
panic. -/
def resolve_source_texture (r : Renderer) : SourceTexture → Except String TextureId
  | .Invalid => .ok 0
  | .WebGL id => .ok id
  | .External id channel_index =>
    match lookupExt r.external_images (id, channel_index) with
    | some texture_id => .ok texture_id
    | none => .error "BUG: External image should be resolved by now!"
  | .TextureCache index =>
    match r.cache_texture_id_map[index]? with
    | some texture_id => .ok texture_id
    | none => .error "index out of bounds"

/-- The loop body of `Renderer::update_deferred_resolves`: lock each deferred
record's external image, record the returned native handle in the
external-image map and patch the UV corners of the addressed resource
rectangle. -/
def resolveLoop (handler : ExternalImageHandler)
    (images : List ((Nat × Nat) × TextureId)) (rects : List ResourceRect) :
    List DeferredResolve →
    List Event × Except String (List ((Nat × Nat) × TextureId) × List ResourceRect)
  | [] => ([], .ok (images, rects))
  | d :: ds =>
    match d.image_properties.external_image with
    | none => ([], .error "BUG: Deferred resolves must be external images!")
    | some ext =>
      let image := handler ext.id ext.channel_index
      let evs := [Event.lock ext.id ext.channel_index]
      -- the source's four-way match on `image_type` only computes the texture
      -- target (dropped in this model) and panics on `ExternalBuffer`
      if ext.image_type = .ExternalBuffer then
        (evs, .error "not a suitable image type in update_deferred_resolves")
      else
        match image.source with
        | .NativeTexture texture_id =>
          let images1 := insertExt images (ext.id, ext.channel_index) texture_id
          match rects[d.resource_address]? with
          | none => (evs, .error "index out of bounds")
          | some rect =>
            let rects1 := rects.set d.resource_address
              { rect with uv0 := (image.u0, image.v0), uv1 := (image.u1, image.v1) }
            let rest := resolveLoop handler images1 rects1 ds
            (evs ++ rest.1, rest.2)
        | .RawData _ => (evs, .error "No native texture found.")

/-- `Renderer::update_deferred_resolves`: when the frame carries deferred
resolves, a handler must be installed; each record is locked, bound into the
per-frame external-image map and its resource rectangle patched. -/
def update_deferred_resolves (r : Renderer) (f : Frame) :
    List Event × Except String (Renderer × Frame) :=
  if f.deferred_resolves.isEmpty then ([], .ok (r, f))
  else
    match r.external_image_handler with
    | none => ([], .error "Found external image, but no handler set!")
    | some handler =>
      let res := resolveLoop handler r.external_images f.gpu_resource_rects
        f.deferred_resolves
      (res.1,
       match res.2 with
       | .error e => .error e
       | .ok (images, rects) =>
         .ok ({ r with external_images := images },
              { f with gpu_resource_rects := rects }))

/-- `Renderer::unlock_external_images`: drain the external-image map, calling
`unlock` once per entry (a handler must be installed when the map is
non-empty). -/
def unlock_external_images (r : Renderer) : List Event × Except String Renderer :=
  if r.external_images.isEmpty then ([], .ok r)
  else
    match r.external_image_handler with
    | none => ([], .error "Found external image, but no handler set!")
    | some _ =>
      (r.external_images.map (fun kv => Event.unlock kv.1.1 kv.1.2),
       .ok { r with external_images := [] })

/-! ## Batch submission (`Renderer::submit_batch`) -/

/-- The shader-variant selection of `submit_batch`: one program per batch key.
The YUV arm indexes `ps_yuv_image` with `get_yuv_shader_index` at buffer kind
`Texture2D`, panicking if the index were out of bounds. -/
def programForBatch (enable_dithering : Bool) (needs_clipping : Bool)
    (blend_mode : BlendMode) (transform_kind : TransformedRectKind) :
    AlphaBatchKind → Except String Program
  | .Rectangle =>
    .ok (if needs_clipping then ps_rectangle_clip.get transform_kind
         else ps_rectangle.get transform_kind)
  | .Composite => .ok ps_composite
  | .SplitComposite => .ok ps_split_composite
  | .HardwareComposite => .ok ps_hw_composite
  | .Blend => .ok ps_blend
  | .TextRun =>
    .ok (match blend_mode with
         | .Subpixel _ => ps_text_run_subpixel.get transform_kind
         | _ => ps_text_run.get transform_kind)
  | .Image _ => .ok (ps_image.get transform_kind)
  | .YuvImage _ format color_space =>
    match ps_yuv_image[get_yuv_shader_index .Texture2D format color_space]? with
    | some pair => .ok (pair.get transform_kind)
    | none => .error "index out of bounds"
  | .BorderCorner => .ok (ps_border_corner.get transform_kind)
  | .BorderEdge => .ok (ps_border_edge.get transform_kind)
  | .AlignedGradient => .ok (ps_gradient enable_dithering |>.get transform_kind)
  | .AngleGradient => .ok (ps_angle_gradient enable_dithering |>.get transform_kind)
  | .RadialGradient => .ok (ps_radial_gradient enable_dithering |>.get transform_kind)
  | .BoxShadow => .ok (ps_box_shadow.get transform_kind)
  | .CacheImage => .ok (ps_cache_image.get transform_kind)

/-- The texture-binding loop of `submit_batch`: resolve each of the batch's
colour source textures and bind it (through the YUV binding call for YUV
batches) to the numbered colour sampler. -/
def bindLoop (r : Renderer) (yuv : Bool) (i : Nat) :
    List SourceTexture → List Event × Except String Unit
  | [] => ([], .ok ())
  | t :: ts =>
    match resolve_source_texture r t with
    | .error e => ([], .error e)
    | .ok texture_id =>
      let ev := if yuv then Event.bind_yuv_texture (.Color i) texture_id
                else Event.bind_texture (.Color i) texture_id
      let rest := bindLoop r yuv (i + 1) ts
      (ev :: rest.1, rest.2)

/-- `Renderer::submit_batch`: the consistency check
`debug_assert!(!needs_clipping || blend_mode is alpha-like)`, the texture
binds (with a device flush first for YUV batches), the dither-matrix bind and
the draw call through the selected program. -/
def submit_batch (r : Renderer) (batch : PrimitiveBatch) :
    List Event × Except String Unit :=
  let transform_kind := batch.key.transform_kind
  let needs_clipping := batch.key.needs_clipping
  if needs_clipping &&
      !(match batch.key.blend_mode with
        | .Alpha | .PremultipliedAlpha | .Subpixel _ => true
        | .«None» => false) then
    ([], .error "debug assertion failed: clipping requires an alpha blend mode")
  else
    let isYuv : Bool :=
      match batch.key.kind with
      | .YuvImage _ _ _ => true
      | _ => false
    let pre := if isYuv then [Event.flush] else []
    let binds := bindLoop r isYuv 0 batch.key.textures
    match binds.2 with
    | .error e => (pre ++ binds.1, .error e)
    | .ok _ =>
      match programForBatch r.enable_dithering needs_clipping batch.key.blend_mode
          transform_kind batch.key.kind with
      | .error e => (pre ++ binds.1, .error e)
      | .ok program =>
        let dither :=
          match r.dither_matrix_texture_id with
          | some id => [Event.bind_texture .Dither id]
          | none => []
        (pre ++ binds.1 ++ dither ++
           [Event.draw program.name batch.key.blend_mode batch.instances.length],
         .ok ())

/-- Submit a list of batches in order, stopping at the first panic. -/
def submitList (r : Renderer) : List PrimitiveBatch → List Event × Except String Unit
  | [] => ([], .ok ())
  | b :: bs =>
    let step := submit_batch r b
    match step.2 with
    | .error e => (step.1, .error e)
    | .ok _ =>
      let rest := submitList r bs
      (step.1 ++ rest.1, rest.2)

/-! ## Per-target and per-pass drawing -/

/-- `Renderer::draw_color_target`: when the draw destination is the default
framebuffer (`render_target` is `None`) the target is cleared with the given
colour and depth 1.0; then the opaque batches and the alpha batches are
submitted in order. -/
def draw_color_target (r : Renderer) (render_target : Option (TextureId × Nat))
    (target : ColorRenderTarget) (clear_color : Option ColorF) :
    List Event × Except String Unit :=
  let clearEvs :=
    match render_target with
    | some _ => []
    | none => [Event.clear_target clear_color (some 1)]
  let opq := submitList r target.opaque_batches
  match opq.2 with
  | .error e => (clearEvs ++ opq.1, .error e)
  | .ok _ =>
    let alpha := submitList r target.alpha_batches
    (clearEvs ++ opq.1 ++ alpha.1, alpha.2)

/-- `Renderer::draw_alpha_target`: the body is entirely commented out in the
source, so it issues no device calls. -/
def draw_alpha_target (_render_target : TextureId × Nat)
    (_target : AlphaRenderTarget) : List Event := []

/-- The clear colour computed for the framebuffer pass in
`draw_tile_frame`'s pass loop: clear when the option is set or a clear is
needed, using the frame's background colour if present, else the configured
clear colour. -/
def framebufferClearColor (clear_framebuffer : Bool) (clear_color : ColorF)
    (needs_clear : Bool) (background_color : Option ColorF) : Option ColorF :=
  if clear_framebuffer || needs_clear then
    some (background_color.map (fun c => c) |>.getD clear_color)
  else
    none

/-- The per-frame inputs of the pass loop that do not change between
passes. -/
structure PassCtx where
  cache_size : Nat × Nat
  background_color : Option ColorF
  needs_clear : Bool
  framebuffer_size : Nat × Nat

/-- The colour-target loop of one pass: each target at index `i` draws to
`(color_texture_id, i)` when a colour target texture is assigned, else to the
default framebuffer. -/
def colorTargetLoop (r : Renderer) (pass : Pass) (clear_color : Option ColorF)
    (i : Nat) : List ColorRenderTarget → List Event × Except String Unit
  | [] => ([], .ok ())
  | t :: ts =>
    let render_target := pass.color_texture_id.map (fun id => (id, i))
    let step := draw_color_target r render_target t clear_color
    match step.2 with
    | .error e => (step.1, .error e)
    | .ok _ =>
      let rest := colorTargetLoop r pass clear_color (i + 1) ts
      (step.1 ++ rest.1, rest.2)

/-- One iteration of the pass loop of `draw_tile_frame`: compute the pass's
clear colour, bind the previous pass's outputs as cache inputs, draw the
alpha then colour targets, compute the next pass's source textures, and
return the pass's textures to the pools (`Option::take`). -/
def processPass (r : Renderer) (ctx : PassCtx) (src_color src_alpha : TextureId)
    (pass : Pass) :
    List Event × Except String (Renderer × TextureId × TextureId × Pass) :=
  let clear_color : Option ColorF :=
    if pass.is_framebuffer then
      framebufferClearColor r.clear_framebuffer r.clear_color ctx.needs_clear
        ctx.background_color
    else
      some (0, 0, 0, 0)
  let bindEvs := [Event.bind_texture .CacheA8 src_alpha,
                  Event.bind_texture .CacheRGBA8 src_color]
  -- each alpha target unwraps `pass.alpha_texture_id`
  if !pass.alpha_targets.isEmpty && pass.alpha_texture_id.isNone then
    (bindEvs, .error "called unwrap on a missing alpha target texture")
  else
    let colors := colorTargetLoop r pass clear_color 0 pass.color_targets
    match colors.2 with
    | .error e => (bindEvs ++ colors.1, .error e)
    | .ok _ =>
      let src_color1 := pass.color_texture_id.getD r.dummy_cache_texture_id
      let src_alpha1 := pass.alpha_texture_id.getD r.dummy_cache_texture_a8_id
      let r1 := { r with
        color_render_targets := r.color_render_targets ++ pass.color_texture_id.toList,
        alpha_render_targets := r.alpha_render_targets ++ pass.alpha_texture_id.toList }
      let pass1 := { pass with color_texture_id := none, alpha_texture_id := none }
      (bindEvs ++ colors.1, .ok (r1, src_color1, src_alpha1, pass1))

/-- The pass loop of `draw_tile_frame`, threading the renderer state and the
chained source textures through the passes. -/
def runPasses (r : Renderer) (ctx : PassCtx) (src_color src_alpha : TextureId) :
    List Pass → List Event × Except String (Renderer × List Pass)
  | [] => ([], .ok (r, []))
  | p :: ps =>
    let step := processPass r ctx src_color src_alpha p
    match step.2 with
    | .error e => (step.1, .error e)
    | .ok (r1, src_color1, src_alpha1, p1) =>
      let rest := runPasses r1 ctx src_color1 src_alpha1 ps
      match rest.2 with
      | .error e => (step.1 ++ rest.1, .error e)
      | .ok (r2, ps2) => (step.1 ++ rest.1, .ok (r2, p1 :: ps2))

/-- The render-target assignment loop of `draw_tile_frame` for one pass:
`debug_assert!` both texture-id slots are empty, then for each needed kind
pop from the matching pool (`Vec::pop`, from the end) or create a fresh
native texture. -/
def allocatePass (r : Renderer) (p : Pass) :
    List Event × Except String (Renderer × Pass) :=
  if p.color_texture_id.isSome || p.alpha_texture_id.isSome then
    ([], .error "debug assertion failed: pass texture ids must start empty")
  else
    let colorStep : Renderer × Pass × List Event :=
      if p.needs_render_target_kind .Color then
        match r.color_render_targets.getLast? with
        | some texture_id =>
          ({ r with color_render_targets := r.color_render_targets.dropLast },
           { p with color_texture_id := some texture_id }, [])
        | none =>
          let texture_id := r.next_texture_id
          ({ r with next_texture_id := texture_id + 1 },
           { p with color_texture_id := some texture_id },
           [Event.create_texture_id texture_id .RGBA8])
      else (r, p, [])
    let r1 := colorStep.1
    let p1 := colorStep.2.1
    let evs1 := colorStep.2.2
    let alphaStep : Renderer × Pass × List Event :=
      if p1.needs_render_target_kind .Alpha then
        match r1.alpha_render_targets.getLast? with
        | some texture_id =>
          ({ r1 with alpha_render_targets := r1.alpha_render_targets.dropLast },
           { p1 with alpha_texture_id := some texture_id }, [])
        | none =>
          let texture_id := r1.next_texture_id
          ({ r1 with next_texture_id := texture_id + 1 },
           { p1 with alpha_texture_id := some texture_id },
           [Event.create_texture_id texture_id .A8])
      else (r1, p1, [])
    (evs1 ++ alphaStep.2.2, .ok (alphaStep.1, alphaStep.2.1))

/-- The render-target assignment loop over all passes. -/
def allocatePasses (r : Renderer) :
    List Pass → List Event × Except String (Renderer × List Pass)
  | [] => ([], .ok (r, []))
  | p :: ps =>
    let step := allocatePass r p
    match step.2 with
    | .error e => (step.1, .error e)
    | .ok (r1, p1) =>
      let rest := allocatePasses r1 ps
      match rest.2 with
      | .error e => (step.1 ++ rest.1, .error e)
      | .ok (r2, ps2) => (step.1 ++ rest.1, .ok (r2, p1 :: ps2))

/-- The texture-initialisation loop of `draw_tile_frame`: size every assigned
render-target texture to the frame's cache size with the required layer
count. -/
def initPassTextures (cache_size : Nat × Nat) (passes : List Pass) : List Event :=
  (passes.map (fun p =>
    (p.color_texture_id.toList.map (fun texture_id =>
       Event.init_texture texture_id cache_size.1 cache_size.2 .RGBA8 .Linear
         (.LayerRenderTarget (p.required_target_count .Color)) none)) ++
    (p.alpha_texture_id.toList.map (fun texture_id =>
       Event.init_texture texture_id cache_size.1 cache_size.2 .A8 .Nearest
         (.LayerRenderTarget (p.required_target_count .Alpha)) none)))).flatten

/-- `Renderer::draw_tile_frame`: deferred resolves, the needs-clear test,
then (when there are passes) target assignment, target initialisation, GPU
data upload and the pass loop with final pool reversal; external images are
unlocked at the end. -/
def draw_tile_frame (r : Renderer) (f : Frame) (framebuffer_size : Nat × Nat) :
    List Event × Except String (Renderer × Frame) :=
  let resolves := update_deferred_resolves r f
  match resolves.2 with
  | .error e => (resolves.1, .error e)
  | .ok (r, f) =>
    let needs_clear :=
      f.window_size.1 < framebuffer_size.1 || f.window_size.2 < framebuffer_size.2
    if f.passes.isEmpty then
      let unlocks := unlock_external_images r
      (resolves.1 ++ unlocks.1,
       match unlocks.2 with
       | .error e => .error e
       | .ok r => .ok (r, f))
    else
      let alloc := allocatePasses r f.passes
      match alloc.2 with
      | .error e => (resolves.1 ++ alloc.1, .error e)
      | .ok (r, passes) =>
        let initEvs := initPassTextures f.cache_size passes
        match init_frame { f with passes := passes } with
        | .error e => (resolves.1 ++ alloc.1 ++ initEvs, .error e)
        | .ok (f, uploadEvs) =>
          let ctx : PassCtx :=
            { cache_size := f.cache_size, background_color := f.background_color,
              needs_clear := needs_clear, framebuffer_size := framebuffer_size }
          let loop := runPasses r ctx r.dummy_cache_texture_id
            r.dummy_cache_texture_a8_id f.passes
          match loop.2 with
          | .error e =>
            (resolves.1 ++ alloc.1 ++ initEvs ++ uploadEvs ++ loop.1, .error e)
          | .ok (r, passes) =>
            let r := { r with
              color_render_targets := r.color_render_targets.reverse,
              alpha_render_targets := r.alpha_render_targets.reverse }
            let unlocks := unlock_external_images r
            (resolves.1 ++ alloc.1 ++ initEvs ++ uploadEvs ++ loop.1 ++ unlocks.1,
             match unlocks.2 with
             | .error e => .error e
             | .ok r => .ok (r, { f with passes := passes }))

/-! ## `Renderer::render` -/

/-- The body of `Renderer::render` when a frame is held: texture-cache
updates, then the tile-frame draw, then a device flush; finally the frame is
restored as the current frame. -/
def renderBody (r : Renderer) (rf : RendererFrame) (f : Frame)
    (framebuffer_size : Nat × Nat) : List Event × Except String Renderer :=
  let r0 := { r with current_frame := none }
  let updates := update_texture_cache r0
  match updates.2 with
  | .error e => (updates.1, .error e)
  | .ok r1 =>
    let drawn := draw_tile_frame r1 f framebuffer_size
    match drawn.2 with
    | .error e => (updates.1 ++ drawn.1, .error e)
    | .ok (r2, f1) =>
      (updates.1 ++ drawn.1 ++ [Event.flush],
       .ok { r2 with current_frame := some { rf with frame := some f1 } })

/-- `Renderer::render`: take the current frame if any, draw it, and restore
it afterwards; with no current frame (or no tile frame inside it) nothing
happens. -/
def Renderer.render (r : Renderer) (framebuffer_size : Nat × Nat) :
    List Event × Except String Renderer :=
  match r.current_frame with
  | none => ([], .ok r)
  | some rf =>
    match rf.frame with
    | none => ([], .ok r)
    | some f => renderBody r rf f framebuffer_size

/-! ## Concrete states used to exercise the embedding -/

/-- A renderer in its initial state (as built by `Renderer::new` with default
options, dithering off): empty queues, empty pools, empty cache table, no
handler; native ids from 10 keep device-created ids apart from the dummy
ids. -/
def baseRenderer : Renderer :=
  { pending_texture_updates := [], pending_shader_updates := [],
    current_frame := none, pipeline_epoch_map := [], cache_texture_id_map := [],
    color_render_targets := [], alpha_render_targets := [], external_images := [],
    external_image_handler := none, enable_dithering := false,
    dither_matrix_texture_id := none, clear_framebuffer := true,
    clear_color := (1, 1, 1, 1), dummy_cache_texture_id := DUMMY_RGBA8_ID,
    dummy_cache_texture_a8_id := DUMMY_A8_ID, next_texture_id := 10 }

/-- A trivial frame: no passes, no deferred resolves, empty data arrays. -/
def emptyFrame : Frame :=
  { window_size := (100, 100), background_color := none, cache_size := (64, 64),
    passes := [], deferred_resolves := [], gpu_data16 := [], gpu_data32 := [],
    gpu_data64 := [], gpu_data128 := [], gpu_geometry := [],
    gpu_resource_rects := [], layer_texture_data := [], render_task_data := [],
    gpu_split_geometry := [], gpu_gradient_data := [] }

/-- A handler whose lock always yields a native-texture source (handle 7). -/
def nativeHandler : ExternalImageHandler :=
  fun _ _ => ⟨0, 0, 1, 1, .NativeTexture 7⟩

/-- A handler whose lock always yields a raw CPU buffer. -/
def rawHandler : ExternalImageHandler :=
  fun _ _ => ⟨0, 0, 1, 1, .RawData [9, 8, 7]⟩

/-- An `UpdateForExternalBuffer` operation on cache slot 0, external image
(1, 0). -/
def c3Update : TextureUpdate :=
  ⟨0, .UpdateForExternalBuffer ⟨0, 0, 4, 4⟩ 1 0 none 0⟩

/-- A renderer with one cache slot (native id 5) and a handler that returns a
native-texture source — the failing input for C3. -/
def c3Renderer : Renderer :=
  { baseRenderer with cache_texture_id_map := [5],
                      external_image_handler := some nativeHandler }

/-- Like `c3Renderer` but with a raw-buffer handler, so the external update
succeeds. -/
def c3OkRenderer : Renderer :=
  { baseRenderer with cache_texture_id_map := [5],
                      external_image_handler := some rawHandler }

/-- A deferred-resolve record for external image (1, 0), patching resource
rectangle 0. -/
def c4Record : DeferredResolve := ⟨⟨some ⟨1, 0, .Texture2DHandle⟩⟩, 0⟩

/-- A frame with one deferred resolve and no passes: drawing it locks (1, 0)
and must unlock it at the end of the frame. -/
def c4OkFrame : Frame :=
  { emptyFrame with deferred_resolves := [c4Record],
                    gpu_resource_rects := [⟨(0, 0), (0, 0)⟩] }

/-- A batch whose colour texture refers to external image (2, 0), which no
deferred resolve ever binds — submitting it panics in
`resolve_source_texture`. -/
def c4Batch : PrimitiveBatch :=
  ⟨⟨.Rectangle, .Alpha, [.External 2 0], .AxisAligned, false⟩, []⟩

/-- A framebuffer pass whose single colour target contains `c4Batch`. -/
def c4FailPass : Pass :=
  { is_framebuffer := true, needs_color := false, needs_alpha := false,
    color_target_count := 0, alpha_target_count := 0,
    color_targets := [⟨[], [c4Batch]⟩], alpha_targets := [],
    color_texture_id := none, alpha_texture_id := none }

/-- `c4OkFrame` with the failing pass added: the deferred resolve locks
(1, 0), then the pass loop panics before the unlock phase. -/
def c4FailFrame : Frame := { c4OkFrame with passes := [c4FailPass] }

/-- A renderer with the native-texture handler installed (needed by deferred
resolves). -/
def c4Renderer : Renderer :=
  { baseRenderer with external_image_handler := some nativeHandler }

/-- A pass that needs one colour render target and draws nothing. -/
def c9Pass : Pass :=
  { is_framebuffer := false, needs_color := true, needs_alpha := false,
    color_target_count := 1, alpha_target_count := 0,
    color_targets := [], alpha_targets := [],
    color_texture_id := none, alpha_texture_id := none }

/-- A frame with a single colour-target pass. -/
def c9Frame : Frame := { emptyFrame with passes := [c9Pass] }

/-- The renderer state after drawing `c9Frame` once from `baseRenderer`. -/
def c9State1 : Renderer :=
  match (draw_tile_frame baseRenderer c9Frame (100, 100)).2 with
  | .ok (r, _) => r
  | .error _ => baseRenderer

/-- A renderer whose colour pool holds two recycled targets. -/
def c9PoolRenderer : Renderer :=
  { baseRenderer with color_render_targets := [21, 22] }

/-- A framebuffer pass with one empty colour target. -/
def c8Pass : Pass :=
  { is_framebuffer := true, needs_color := false, needs_alpha := false,
    color_target_count := 0, alpha_target_count := 0,
    color_targets := [⟨[], []⟩], alpha_targets := [],
    color_texture_id := none, alpha_texture_id := none }

/-- A frame whose window (50 x 50) is smaller than the framebuffer, with a
background colour, holding only `c8Pass`. -/
def c8Frame : Frame :=
  { emptyFrame with passes := [c8Pass], window_size := (50, 50),
                    background_color := some (2, 3, 4, 5) }

/-- A renderer with framebuffer clearing disabled. -/
def c8Renderer : Renderer := { baseRenderer with clear_framebuffer := false }

/-- A `RendererFrame` wrapping the trivial frame. -/
def c10Frame : RendererFrame := ⟨[], [], some emptyFrame⟩

/-- A renderer holding `c10Frame` as its current frame. -/
def c10Renderer : Renderer := { baseRenderer with current_frame := some c10Frame }

/-- The renderer state after one successful `render` call on
`c10Renderer`. -/
def c10SecondState : Renderer :=
  match (Renderer.render c10Renderer (100, 100)).2 with
  | .ok r => r
  | .error _ => c10Renderer

/-- First drained frame for the C1 scenario (carries no tile frame). -/
def c1Frame1 : RendererFrame := ⟨[(1, 5)], [], none⟩

/-- Second (and last) drained frame for the C1 scenario. -/
def c1Frame2 : RendererFrame := ⟨[(2, 6)], [], some emptyFrame⟩

/-- Texture updates carried by the first C1 message. -/
def c1List1 : TextureUpdateList :=
  ⟨[⟨0, .Create 8 8 .RGBA8 .Nearest .«None» none⟩]⟩

/-- Texture updates carried by the second C1 message. -/
def c1List2 : TextureUpdateList := ⟨[⟨0, .Free⟩]⟩

/-- Three drained messages: two `NewFrame`s around a `RefreshShader`. -/
def c1Msgs : List ResultMsg :=
  [.NewFrame c1Frame1 c1List1, .RefreshShader 3, .NewFrame c1Frame2 c1List2]

/-- The spec's scenario sequence for the cache table: create slot 0, create
slot 1, update slot 0, free slot 0, re-create slot 0 at a larger size. -/
def c2Ops : List TextureUpdate :=
  [⟨0, .Create 64 64 .RGBA8 .Nearest .«None» none⟩,
   ⟨1, .Create 32 32 .A8 .Nearest .«None» none⟩,
   ⟨0, .Update 0 0 4 4 [1, 2, 3] none 1⟩,
   ⟨0, .Free⟩,
   ⟨0, .Create 128 128 .RGBA8 .Nearest .«None» none⟩]

/-- The cache-slot indices of the `Create` operations in a sequence. -/
def createIndices (ops : List TextureUpdate) : List Nat :=
  ops.filterMap (fun u =>
    match u.op with
    | .Create _ _ _ _ _ _ => some u.id
    | _ => none)

/-- The (id, channel) keys of a list of deferred-resolve records. -/
def recordKeys (ds : List DeferredResolve) : List (Nat × Nat) :=
  ds.filterMap (fun d =>
    d.image_properties.external_image.map (fun e => (e.id, e.channel_index)))

/-- The texture-update lists carried by the `NewFrame` messages of a drained
sequence, in arrival order. -/
def textureListsOf (msgs : List ResultMsg) : List TextureUpdateList :=
  msgs.filterMap (fun m =>
    match m with
    | .NewFrame _ l => some l
    | .RefreshShader _ => none)

/-- One step of the last-new-frame fold. -/
def lastNewFrameStep (acc : Option RendererFrame) : ResultMsg → Option RendererFrame
  | .NewFrame f _ => some f
  | .RefreshShader _ => acc

/-- The frame carried by the last `NewFrame` message of a drained sequence,
if any. -/
def lastNewFrameOf (msgs : List ResultMsg) : Option RendererFrame :=
  msgs.foldl lastNewFrameStep none

/-- The renderer state after a successful application of the C2 scenario
sequence. -/
def c2Final : Renderer :=
  match (applyUpdates baseRenderer c2Ops).2 with
  | .ok r => r
  | .error _ => baseRenderer

/-! ## Lemmas about the packing loop -/

/-- `padData` with items-per-row zero is the identity (the source guard). -/
theorem padData_eq_zero {α : Type} (d : α) (data : List α) :
    padData 0 d data = data := by
  simp [padData]

/-- The closed form of `padData` appends fewer than one row of default items
and reaches a whole number of rows. -/
theorem padData_spec {α : Type} (items_per_row : Nat) (h : 0 < items_per_row)
    (d : α) (data : List α) :
    padData items_per_row d data
      = data ++ List.replicate
          ((items_per_row - data.length % items_per_row) % items_per_row) d
    ∧ (padData items_per_row d data).length % items_per_row = 0
    ∧ (items_per_row - data.length % items_per_row) % items_per_row
        < items_per_row := by
  have hne : items_per_row ≠ 0 := Nat.pos_iff_ne_zero.mp h
  refine ⟨by simp [padData, hne], ?_, Nat.mod_lt _ h⟩
  simp only [padData, if_neg hne, List.length_append, List.length_replicate]
  rcases Nat.eq_zero_or_pos (data.length % items_per_row) with h0 | hpos
  · have h1 : (items_per_row - data.length % items_per_row) % items_per_row = 0 := by
      rw [h0, Nat.sub_zero, Nat.mod_self]
    rw [h1, Nat.add_zero]
    exact h0
  · have hlt : data.length % items_per_row < items_per_row := Nat.mod_lt _ h
    have h1 : (items_per_row - data.length % items_per_row) % items_per_row
        = items_per_row - data.length % items_per_row := Nat.mod_eq_of_lt (by omega)
    rw [h1]
    have hdm := Nat.div_add_mod data.length items_per_row
    have h2 : data.length + (items_per_row - data.length % items_per_row)
        = items_per_row * (data.length / items_per_row) + items_per_row := by omega
    rw [h2, ← Nat.mul_succ, Nat.mul_mod_right]

/-- The closed-form `padData` satisfies the defining equation of the source's
`while data.len() % items_per_row != 0 { data.push(default) }` loop (with its
`items_per_row != 0` guard), so it is the loop's result. -/
theorem padData_loop_eq {α : Type} (items_per_row : Nat) (d : α) (data : List α) :
    padData items_per_row d data
      = if items_per_row ≠ 0 ∧ data.length % items_per_row ≠ 0 then
          padData items_per_row d (data ++ [d])
        else data := by
  by_cases h0 : items_per_row = 0
  · simp [padData, h0]
  by_cases hr : data.length % items_per_row = 0
  · simp [padData, h0, hr]
  · have hpos : 0 < items_per_row := Nat.pos_of_ne_zero h0
    have hlt : data.length % items_per_row < items_per_row := Nat.mod_lt _ hpos
    rw [if_pos ⟨h0, hr⟩]
    simp only [padData, if_neg h0, List.length_append, List.length_singleton]
    rw [List.append_assoc]
    congr 1
    have h1 : (items_per_row - data.length % items_per_row) % items_per_row
        = items_per_row - data.length % items_per_row := Nat.mod_eq_of_lt (by omega)
    by_cases he : data.length % items_per_row + 1 = items_per_row
    · have hipr2 : 1 < items_per_row := by omega
      have h2 : (data.length + 1) % items_per_row = 0 := by
        rw [Nat.add_mod, Nat.mod_eq_of_lt hipr2, he, Nat.mod_self]
      rw [h2, h1]
      have h3 : items_per_row - data.length % items_per_row = 1 := by omega
      rw [h3]
      simp [Nat.mod_self]
    · have hipr2 : 1 < items_per_row := by omega
      have h2 : (data.length + 1) % items_per_row
          = data.length % items_per_row + 1 := by
        rw [Nat.add_mod, Nat.mod_eq_of_lt hipr2]
        exact Nat.mod_eq_of_lt (by omega)
      rw [h2]
      have h3 : (items_per_row - (data.length % items_per_row + 1)) % items_per_row
          = items_per_row - (data.length % items_per_row + 1) :=
        Nat.mod_eq_of_lt (by omega)
      rw [h1, h3]
      have h4 : items_per_row - data.length % items_per_row
          = (items_per_row - (data.length % items_per_row + 1)) + 1 := by omega
      rw [h4, List.replicate_succ, List.singleton_append]

/-! ## Claims C5, C6, C7, C3 -/

/-- C5: for every data category handed to the GPU data texture packer, an
empty record sequence performs no upload at all, and a non-empty sequence
(for the categories' formats, with a positive items-per-row) is extended with
exactly `(items_per_row - len % items_per_row) % items_per_row` default
records — fewer than one row — so that its length is an exact multiple of
the items-per-row, before a single upload of the whole padded array is
issued. -/
theorem c5_gpu_data_padding {α : Type} (image_format : ImageFormat)
    (sampler : TextureSampler) (items_per_row : Nat) (d : α) (data : List α)
    (size : Nat) :
    (data = [] →
       GpuDataTexture_init image_format sampler items_per_row d data size
         = ([], .ok data))
    ∧ (data ≠ [] → 0 < items_per_row →
       (image_format = .RGBAF32 ∨ image_format = .RGBA8) →
       ((items_per_row - data.length % items_per_row) % items_per_row
           < items_per_row
        ∧ (data.length
             + (items_per_row - data.length % items_per_row) % items_per_row)
            % items_per_row = 0
        ∧ (GpuDataTexture_init image_format sampler items_per_row d data size).2
            = .ok (data ++ List.replicate
                ((items_per_row - data.length % items_per_row) % items_per_row) d)
        ∧ (GpuDataTexture_init image_format sampler items_per_row d data size).1
            = [if image_format = .RGBAF32 then
                 Event.update_sampler_f32 sampler
                   ((data.length
                      + (items_per_row - data.length % items_per_row)
                          % items_per_row) * size)
               else
                 Event.update_sampler_u8 sampler
                   ((data.length
                      + (items_per_row - data.length % items_per_row)
                          % items_per_row) * size)])) := by
  constructor
  · intro h
    subst h
    simp [GpuDataTexture_init]
  · intro hne hpos hfmt
    have hE : data.isEmpty = false := by
      cases data with
      | nil => exact absurd rfl hne
      | cons a l => rfl
    obtain ⟨hpad, hmod, hlt⟩ := padData_spec items_per_row hpos d data
    have hlen : (padData items_per_row d data).length
        = data.length
          + (items_per_row - data.length % items_per_row) % items_per_row := by
      rw [hpad, List.length_append, List.length_replicate]
    refine ⟨hlt, ?_, ?_, ?_⟩
    · rw [← hlen]; exact hmod
    · rcases hfmt with h | h <;> subst h <;>
        simp [GpuDataTexture_init, hE, hpad]
    · rcases hfmt with h | h <;> subst h <;>
        simp [GpuDataTexture_init, hE, hlen]

/-- Witness for C5 at items-per-row 4 and a two-record category. -/
theorem c5_gpu_data_padding_witness :
    (2 % 4 < 4
     ∧ (([5, 6] : List Nat).length + (4 - ([5, 6] : List Nat).length % 4) % 4) % 4 = 0
     ∧ (GpuDataTexture_init .RGBAF32 .Data16 4 (0 : Nat) [5, 6] 4).2
         = .ok ([5, 6] ++ List.replicate ((4 - ([5, 6] : List Nat).length % 4) % 4) 0)
     ∧ (GpuDataTexture_init .RGBAF32 .Data16 4 (0 : Nat) [5, 6] 4).1
         = [if ImageFormat.RGBAF32 = ImageFormat.RGBAF32 then
              Event.update_sampler_f32 .Data16
                ((([5, 6] : List Nat).length
                   + (4 - ([5, 6] : List Nat).length % 4) % 4) * 4)
            else
              Event.update_sampler_u8 .Data16
                ((([5, 6] : List Nat).length
                   + (4 - ([5, 6] : List Nat).length % 4) % 4) * 4)]) :=
  (c5_gpu_data_padding .RGBAF32 .Data16 4 0 [5, 6] 4).2 (by decide) (by decide)
    (Or.inl rfl)

/-- C6: the YUV shader-variant index computed by
`Renderer::get_yuv_shader_index` equals the spec's flattened row-major
formula `(bufferKind * formatCount + format) * colorSpaceCount + colorSpace`
with formatCount and colorSpaceCount the numbers of YUV formats (3) and
colour spaces (2). -/
theorem c6_yuv_shader_index :
    ∀ (buffer_kind : ImageBufferKind) (format : YuvFormat)
      (color_space : YuvColorSpace),
      get_yuv_shader_index buffer_kind format color_space
        = specYuvVariantIndex buffer_kind.toUsize format.toUsize
            color_space.toUsize YUV_FORMATS.length YUV_COLOR_SPACES.length
      ∧ YUV_FORMATS.length = 3 ∧ YUV_COLOR_SPACES.length = 2 := by
  intro buffer_kind format color_space
  cases buffer_kind <;> cases format <;> cases color_space <;>
    exact ⟨by decide, by decide, by decide⟩

/-- C7: a batch that `submit_batch` accepts never combines `needs_clipping`
with blend mode `None`, and a batch that does combine them fails the
submit-time consistency check (the `debug_assert!`) before any device call is
issued. -/
theorem c7_clipping_blend_check :
    (∀ (r : Renderer) (batch : PrimitiveBatch),
       isOk (submit_batch r batch).2 = true →
       batch.key.needs_clipping = true →
       batch.key.blend_mode ≠ BlendMode.None)
    ∧ (∀ (r : Renderer) (batch : PrimitiveBatch),
       batch.key.needs_clipping = true →
       batch.key.blend_mode = BlendMode.None →
       (submit_batch r batch)
         = ([], .error
             "debug assertion failed: clipping requires an alpha blend mode")) := by
  constructor
  · intro r batch hok hclip hnone
    rw [submit_batch, hclip, hnone] at hok
    simp [isOk] at hok
  · intro r batch hclip hnone
    rw [submit_batch, hclip, hnone]
    simp

/-- Witness for C7: a clipped rectangle batch with blend mode `None` fails
the submit-time consistency check. -/
theorem c7_clipping_blend_check_witness :
    (⟨⟨.Rectangle, .«None», [], .AxisAligned, true⟩, []⟩ : PrimitiveBatch).key.needs_clipping
        = true
    ∧ (submit_batch baseRenderer ⟨⟨.Rectangle, .«None», [], .AxisAligned, true⟩, []⟩
         = ([], .error
             "debug assertion failed: clipping requires an alpha blend mode")) :=
  ⟨rfl, c7_clipping_blend_check.2 baseRenderer
    ⟨⟨.Rectangle, .«None», [], .AxisAligned, true⟩, []⟩ rfl rfl⟩

/-- C3 counterexample: for an `UpdateForExternalBuffer` whose lock returns a
native-texture source (not a raw buffer), the code panics inside the source
match and `unlock` is never called — the trace holds the lock and no unlock,
refuting "unlock is called exactly once even when the lock's returned source
fails". -/
theorem c3_counterexample :
    (applyUpdate c3Renderer c3Update).1 = [Event.lock 1 0]
    ∧ (applyUpdate c3Renderer c3Update).1.count (Event.unlock 1 0) = 0
    ∧ isOk (applyUpdate c3Renderer c3Update).2 = false := by
  decide

/-- C3 (amended): for every `UpdateForExternalBuffer` operation processed
with a handler installed whose lock yields a raw-data source, if the byte
offset is within the locked buffer the handler is unlocked exactly once,
immediately after the device write for that operation; if the offset is out
of range the slice panics before the device write and before the unlock, so
the trace holds the lock with no unlock. (When the lock's returned source is
not a raw buffer at all the process likewise panics before the unlock, see
`c3_counterexample`.) -/
theorem c3_unlock_after_external_write
    (r : Renderer) (u : TextureUpdate) (rect : DeviceUintRect)
    (id channel_index : Nat) (stride : Option Nat) (offset : Nat)
    (handler : ExternalImageHandler) (raw : List Nat) (cached_id : TextureId)
    (hop : u.op = .UpdateForExternalBuffer rect id channel_index stride offset)
    (hh : r.external_image_handler = some handler)
    (hsrc : (handler id channel_index).source = .RawData raw)
    (hget : r.cache_texture_id_map[u.id]? = some cached_id) :
    (offset ≤ raw.length →
      applyUpdate r u
        = ([Event.lock id channel_index,
            Event.update_texture cached_id rect.x rect.y
              rect.width rect.height stride (raw.drop offset),
            Event.unlock id channel_index], .ok r))
    ∧ (raw.length < offset →
      applyUpdate r u
        = ([Event.lock id channel_index],
           .error "range start index out of range for slice")) := by
  constructor
  · intro hoff
    rw [applyUpdate, hop]
    simp [hh, hget, hsrc, hoff]
  · intro hoff
    rw [applyUpdate, hop]
    simp [hh, hget, hsrc, Nat.not_le.mpr hoff]

/-- Witness for C3 (amended): the concrete in-bounds external update succeeds
and its trace is lock, write, unlock. -/
theorem c3_unlock_after_external_write_witness :
    (0 : Nat) ≤ ([9, 8, 7] : List Nat).length
    ∧ applyUpdate c3OkRenderer c3Update
        = ([Event.lock 1 0, Event.update_texture 5 0 0 4 4 none [9, 8, 7],
            Event.unlock 1 0], .ok c3OkRenderer) :=
  ⟨by decide,
   (c3_unlock_after_external_write c3OkRenderer c3Update ⟨0, 0, 4, 4⟩ 1 0 none 0
     rawHandler [9, 8, 7] 5 rfl rfl rfl rfl).1 (by decide)⟩

/-! ## Lemmas about the texture-cache table (C2) -/

/-- When `createData` succeeds it issues exactly one `init_texture`, aimed at
the resolved slot handle, and allocates no native texture. -/
theorem createData_ok_events (r : Renderer) (texture_id : TextureId)
    (width height : Nat) (format : ImageFormat) (filter : TextureFilter)
    (mode : RenderTargetMode) (data : Option ImageData)
    (h : (createData r texture_id width height format filter mode data).2 = .ok ()) :
    (createData r texture_id width height format filter mode data).1.filterMap
        Event.initTarget = [texture_id]
    ∧ (createData r texture_id width height format filter mode data).1.countP
        Event.isCreateTexture = 0 := by
  rcases data with _ | img
  · simp [createData, Event.initTarget, Event.isCreateTexture]
  rcases img with raw | ext | t
  · simp [createData, Event.initTarget, Event.isCreateTexture]
  · rcases hext : ext.image_type with _ | _ | _ | _ <;>
      simp only [createData, hext] at h ⊢ <;> try exact absurd h (by simp)
    rcases hh : r.external_image_handler with _ | handler <;>
      simp only [hh] at h ⊢
    · exact absurd h (by simp)
    · rcases hs : (handler ext.id ext.channel_index).source with raw | n <;>
        simp only [hs] at h ⊢
      · simp [Event.initTarget, Event.isCreateTexture]
      · exact absurd h (by simp)
  · exact absurd h (by simp [createData])

/-- The table length after one successful texture update: a `Create` grows it
to cover its index, every other operation leaves it unchanged. -/
theorem applyUpdate_ok_length (r : Renderer) (u : TextureUpdate) (r' : Renderer)
    (h : (applyUpdate r u).2 = .ok r') :
    r'.cache_texture_id_map.length
      = match u.op with
        | .Create _ _ _ _ _ _ => max r.cache_texture_id_map.length (u.id + 1)
        | _ => r.cache_texture_id_map.length := by
  rcases u with ⟨uid, op⟩
  cases op with
  | Create width height format filter mode data =>
    simp only [applyUpdate] at h ⊢
    by_cases hlen : r.cache_texture_id_map.length = uid
    · simp only [if_pos hlen] at h
      rcases hget : (r.cache_texture_id_map ++ [r.next_texture_id])[uid]? with _ | tid <;>
        simp only [hget] at h
      · exact absurd h (by simp)
      · rcases hres : (createData { r with
            next_texture_id := r.next_texture_id + 1,
            cache_texture_id_map := r.cache_texture_id_map ++ [r.next_texture_id] }
            tid width height format filter mode data).2 with e | unit <;>
          simp only [hres] at h
        · exact absurd h (by simp)
        · cases h
          simp [← hlen]
    · simp only [if_neg hlen] at h
      rcases hget : r.cache_texture_id_map[uid]? with _ | tid <;>
        simp only [hget] at h
      · exact absurd h (by simp)
      · have hlt : uid < r.cache_texture_id_map.length :=
          (List.getElem?_eq_some_iff.mp hget).1
        rcases hres : (createData r tid width height format filter mode data).2
            with e | unit <;> simp only [hres] at h
        · exact absurd h (by simp)
        · cases h
          simp
          omega
  | Grow width height format filter mode =>
    simp only [applyUpdate] at h
    rcases hget : r.cache_texture_id_map[uid]? with _ | tid <;>
      simp only [hget] at h
    · exact absurd h (by simp)
    · cases h; rfl
  | Update a b c dd e f g =>
    simp only [applyUpdate] at h
    rcases hget : r.cache_texture_id_map[uid]? with _ | tid <;>
      simp only [hget] at h
    · exact absurd h (by simp)
    · split at h
      · cases h; rfl
      · exact absurd h (by simp)
  | UpdateForExternalBuffer rect id channel_index stride offset =>
    simp only [applyUpdate] at h
    rcases hh : r.external_image_handler with _ | handler <;>
      simp only [hh] at h
    · exact absurd h (by simp)
    · rcases hget : r.cache_texture_id_map[uid]? with _ | tid <;>
        simp only [hget] at h
      · exact absurd h (by simp)
      · rcases hs : (handler id channel_index).source with raw | n <;>
          simp only [hs] at h
        · split at h
          · cases h; rfl
          · exact absurd h (by simp)
        · exact absurd h (by simp)
  | Free =>
    simp only [applyUpdate] at h
    rcases hget : r.cache_texture_id_map[uid]? with _ | tid <;>
      simp only [hget] at h
    · exact absurd h (by simp)
    · cases h; rfl

/-- The table length after a successful update sequence, as a fold over the
`Create` indices. -/
theorem applyUpdates_ok_length (ops : List TextureUpdate) (r r' : Renderer)
    (h : (applyUpdates r ops).2 = .ok r') :
    r'.cache_texture_id_map.length
      = (createIndices ops).foldl (fun a i => max a (i + 1))
          r.cache_texture_id_map.length := by
  induction ops generalizing r with
  | nil =>
    simp only [applyUpdates] at h
    cases h
    rfl
  | cons u us ih =>
    simp only [applyUpdates] at h
    rcases hu : (applyUpdate r u).2 with e | r1 <;> simp only [hu] at h
    · exact absurd h (by simp)
    · have hstep := applyUpdate_ok_length r u r1 hu
      have hrest := ih r1 h
      rcases u with ⟨uid, op⟩
      cases op <;>
        simp only [createIndices, List.filterMap_cons] at hrest ⊢ <;>
        simp only at hstep <;>
        rw [hrest, hstep] <;> rfl

/-- Folding max-of-successor over a list starting above zero. -/
theorem foldl_max_succ (l : List Nat) (a : Nat) :
    l.foldl (fun n i => max n (i + 1)) (a + 1) = l.foldl max a + 1 := by
  induction l generalizing a with
  | nil => rfl
  | cons x xs ih =>
    simp only [List.foldl]
    rw [show max (a + 1) (x + 1) = max a x + 1 from Nat.succ_max_succ a x, ih]

/-- C2: against the flat cache-texture table, a `Create` whose index equals
the current length appends exactly one freshly created native texture; a
`Create` below the length allocates nothing and re-initialises the handle
already stored at that index; `Free` de-initialises the slot's native storage
but keeps the handle in the table; and a successful sequence applied to an
initially empty table leaves the table exactly `highest Create index + 1`
entries long. -/
theorem c2_texture_cache_table :
    (∀ (r : Renderer) (u : TextureUpdate) (width height : Nat)
       (format : ImageFormat) (filter : TextureFilter) (mode : RenderTargetMode)
       (data : Option ImageData) (r' : Renderer),
       u.op = .Create width height format filter mode data →
       u.id = r.cache_texture_id_map.length →
       (applyUpdate r u).2 = .ok r' →
       r'.cache_texture_id_map = r.cache_texture_id_map ++ [r.next_texture_id]
       ∧ (applyUpdate r u).1.countP Event.isCreateTexture = 1)
    ∧ (∀ (r : Renderer) (u : TextureUpdate) (width height : Nat)
       (format : ImageFormat) (filter : TextureFilter) (mode : RenderTargetMode)
       (data : Option ImageData) (r' : Renderer),
       u.op = .Create width height format filter mode data →
       u.id < r.cache_texture_id_map.length →
       (applyUpdate r u).2 = .ok r' →
       r'.cache_texture_id_map = r.cache_texture_id_map
       ∧ (applyUpdate r u).1.countP Event.isCreateTexture = 0
       ∧ (applyUpdate r u).1.filterMap Event.initTarget
           = [r.cache_texture_id_map.getD u.id 0])
    ∧ (∀ (r : Renderer) (u : TextureUpdate) (r' : Renderer),
       u.op = .Free →
       (applyUpdate r u).2 = .ok r' →
       r'.cache_texture_id_map = r.cache_texture_id_map
       ∧ (applyUpdate r u).1
           = [Event.deinit_texture (r.cache_texture_id_map.getD u.id 0)])
    ∧ (∀ (r : Renderer) (ops : List TextureUpdate) (r' : Renderer),
       r.cache_texture_id_map = [] →
       (applyUpdates r ops).2 = .ok r' →
       createIndices ops ≠ [] →
       r'.cache_texture_id_map.length = (createIndices ops).foldl max 0 + 1) := by
  refine ⟨?_, ?_, ?_, ?_⟩
  · intro r u width height format filter mode data r' hop hid h
    rcases u with ⟨uid, op⟩
    simp only at hop
    subst hop
    simp only at hid
    simp only [applyUpdate, if_pos hid.symm] at h ⊢
    rcases hget : (r.cache_texture_id_map ++ [r.next_texture_id])[uid]? with _ | tid <;>
      simp only [hget] at h ⊢
    · exact absurd h (by simp)
    · rcases hres : (createData { r with
          next_texture_id := r.next_texture_id + 1,
          cache_texture_id_map := r.cache_texture_id_map ++ [r.next_texture_id] }
          tid width height format filter mode data).2 with e | unit <;>
        simp only [hres] at h
      · exact absurd h (by simp)
      · cases h
        refine ⟨rfl, ?_⟩
        have hc := (createData_ok_events _ tid width height format filter mode data
          (by rw [hres])).2
        rw [List.countP_append, hc]
        simp [Event.isCreateTexture]
  · intro r u width height format filter mode data r' hop hid h
    rcases u with ⟨uid, op⟩
    simp only at hop
    subst hop
    simp only at hid
    have hne : ¬ r.cache_texture_id_map.length = uid := by omega
    simp only [applyUpdate, if_neg hne] at h ⊢
    rcases hget : r.cache_texture_id_map[uid]? with _ | tid <;>
      simp only [hget] at h ⊢
    · exact absurd h (by simp)
    · rcases hres : (createData r tid width height format filter mode data).2
        with e | unit <;> simp only [hres] at h
      · exact absurd h (by simp)
      · cases h
        have hc := createData_ok_events r tid width height format filter mode data
          (by rw [hres])
        have htid : r.cache_texture_id_map.getD uid 0 = tid := by
          simp [List.getD, hget]
        refine ⟨rfl, ?_, ?_⟩
        · simp [List.countP_append, hc.2]
        · simp [List.filterMap_append, hc.1, List.getD, hget]
  · intro r u r' hop h
    rcases u with ⟨uid, op⟩
    simp only at hop
    subst hop
    simp only [applyUpdate] at h ⊢
    rcases hget : r.cache_texture_id_map[uid]? with _ | tid <;>
      simp only [hget] at h ⊢
    · exact absurd h (by simp)
    · cases h
      have htid : r.cache_texture_id_map.getD uid 0 = tid := by
        simp [List.getD, hget]
      exact ⟨rfl, by rw [htid]⟩
  · intro r ops r' hempty h hcreates
    have hlen := applyUpdates_ok_length ops r r' h
    rw [hempty] at hlen
    simp only [List.length_nil] at hlen
    rcases hci : createIndices ops with _ | ⟨i, is⟩
    · exact absurd hci hcreates
    · rw [hci] at hlen
      simp only [List.foldl, Nat.zero_max] at hlen ⊢
      rw [hlen]
      exact foldl_max_succ is i

/-- Witness for C2: the spec's scenario sequence (create 0, create 1, update
0, free 0, re-create 0) succeeds from the empty table and leaves it with
highest-create-index + 1 = 2 entries. -/
theorem c2_texture_cache_table_witness :
    c2Final.cache_texture_id_map.length = (createIndices c2Ops).foldl max 0 + 1 :=
  c2_texture_cache_table.2.2.2 baseRenderer c2Ops c2Final rfl rfl (by decide)

/-! ## Lemmas about the result-channel drain (C1) -/

/-- The pending texture-update lists after a drain: every `NewFrame`'s list is
appended in arrival order. -/
theorem update_pending (msgs : List ResultMsg) : ∀ (r : Renderer),
    (Renderer.update r msgs).pending_texture_updates
      = r.pending_texture_updates ++ textureListsOf msgs := by
  induction msgs with
  | nil => intro r; simp [Renderer.update, textureListsOf]
  | cons m ms ih =>
    intro r
    have hstep : Renderer.update r (m :: ms)
        = Renderer.update (processResultMsg r m) ms := rfl
    rw [hstep, ih]
    cases m with
    | NewFrame f l => simp [processResultMsg, textureListsOf]
    | RefreshShader p => simp [processResultMsg, textureListsOf]

/-- The last-new-frame fold ignores its accumulator as soon as the list holds
a `NewFrame`. -/
theorem lastNewFrame_mono (ms : List ResultMsg) : ∀ (a : Option RendererFrame),
    ms.foldl lastNewFrameStep a
      = match ms.foldl lastNewFrameStep none with
        | some x => some x
        | none => a := by
  induction ms with
  | nil => intro a; rfl
  | cons m ms ih =>
    intro a
    cases m with
    | NewFrame f l =>
      simp only [List.foldl_cons, lastNewFrameStep]
      rw [ih (some f)]
      cases ms.foldl lastNewFrameStep none <;> rfl
    | RefreshShader p =>
      simp only [List.foldl_cons, lastNewFrameStep]
      rw [ih a]

/-- Unfolding of the last-new-frame fold over a cons cell. -/
theorem lastNewFrameOf_cons (m : ResultMsg) (ms : List ResultMsg) :
    lastNewFrameOf (m :: ms)
      = match lastNewFrameOf ms with
        | some x => some x
        | none => lastNewFrameStep none m := by
  rw [lastNewFrameOf, List.foldl_cons, lastNewFrame_mono ms]
  rfl

/-- A drain whose messages carry no `NewFrame` leaves the current frame
unchanged. -/
theorem update_current_frame_none (ms : List ResultMsg) : ∀ (r : Renderer),
    lastNewFrameOf ms = none →
    (Renderer.update r ms).current_frame = r.current_frame := by
  induction ms with
  | nil => intro r _; rfl
  | cons m ms ih =>
    intro r h
    rw [lastNewFrameOf_cons] at h
    have hstep : Renderer.update r (m :: ms)
        = Renderer.update (processResultMsg r m) ms := rfl
    rcases hms : lastNewFrameOf ms with _ | x
    · rw [hms] at h
      rw [hstep, ih _ hms]
      cases m with
      | NewFrame f l => exact absurd h (by simp [lastNewFrameStep])
      | RefreshShader p => rfl
    · rw [hms] at h
      exact Option.noConfusion h

/-- After a drain, the current frame is the last `NewFrame`'s frame. -/
theorem update_current_frame (msgs : List ResultMsg) :
    ∀ (r : Renderer) (rf : RendererFrame),
    lastNewFrameOf msgs = some rf →
    (Renderer.update r msgs).current_frame = some rf := by
  induction msgs with
  | nil =>
    intro r rf h
    exact Option.noConfusion h
  | cons m ms ih =>
    intro r rf h
    rw [lastNewFrameOf_cons] at h
    have hstep : Renderer.update r (m :: ms)
        = Renderer.update (processResultMsg r m) ms := rfl
    rw [hstep]
    rcases hms : lastNewFrameOf ms with _ | rf'
    · rw [hms] at h
      rw [update_current_frame_none ms _ hms]
      cases m with
      | NewFrame f l =>
        simp only [lastNewFrameStep] at h
        cases h
        rfl
      | RefreshShader p => exact absurd h (by simp [lastNewFrameStep])
    · rw [hms] at h
      cases h
      exact ih _ _ hms

/-- C1: draining a message sequence keeps only the last `NewFrame`'s frame as
the current frame, while the texture-update lists of all drained `NewFrame`
messages are appended to the pending queue in arrival order; the next
successful `render` call applies exactly that accumulated queue, in order,
as a prefix of its device trace — before any drawing. -/
theorem c1_result_channel_drain (r : Renderer) (msgs : List ResultMsg) :
    ((Renderer.update r msgs).pending_texture_updates
        = r.pending_texture_updates ++ textureListsOf msgs)
    ∧ (∀ rf, lastNewFrameOf msgs = some rf →
        (Renderer.update r msgs).current_frame = some rf)
    ∧ (∀ (framebuffer_size : Nat × Nat) (rf : RendererFrame) (f : Frame),
        (Renderer.update r msgs).current_frame = some rf →
        rf.frame = some f →
        isOk (Renderer.render (Renderer.update r msgs) framebuffer_size).2 = true →
        ∃ tDraw,
          (Renderer.render (Renderer.update r msgs) framebuffer_size).1
            = (applyUpdateLists
                { Renderer.update r msgs with
                    current_frame := none, pending_texture_updates := [] }
                (r.pending_texture_updates ++ textureListsOf msgs)).1 ++ tDraw) := by
  refine ⟨update_pending msgs r, fun rf h => update_current_frame msgs r rf h, ?_⟩
  intro framebuffer_size rf f hcf hf hok
  have hrender : Renderer.render (Renderer.update r msgs) framebuffer_size
      = renderBody (Renderer.update r msgs) rf f framebuffer_size := by
    rw [Renderer.render, hcf]
    simp only [hf]
  rw [hrender] at hok ⊢
  rcases hupd : (update_texture_cache
      { Renderer.update r msgs with current_frame := none }).2 with e | r1
  · rw [renderBody] at hok
    simp only [hupd] at hok
    exact absurd hok (by simp [isOk])
  · rcases hdraw : (draw_tile_frame r1 f framebuffer_size).2 with e | rf1
    · rw [renderBody] at hok
      simp only [hupd, hdraw] at hok
      exact absurd hok (by simp [isOk])
    · obtain ⟨r2, f1⟩ := rf1
      refine ⟨(draw_tile_frame r1 f framebuffer_size).1 ++ [Event.flush], ?_⟩
      rw [renderBody]
      simp only [hupd, hdraw]
      have hpend : ({ Renderer.update r msgs with
          current_frame := none } : Renderer).pending_texture_updates
          = r.pending_texture_updates ++ textureListsOf msgs := update_pending msgs r
      rw [update_texture_cache, hpend]
      simp [List.append_assoc]

/-- Witness for C1: three concrete messages (frame, shader refresh, frame)
drained into the initial renderer; the second frame is kept, both update
lists are retained, and the following render applies them first. -/
theorem c1_result_channel_drain_witness :
    ((Renderer.update baseRenderer c1Msgs).pending_texture_updates
        = baseRenderer.pending_texture_updates ++ textureListsOf c1Msgs)
    ∧ (Renderer.update baseRenderer c1Msgs).current_frame = some c1Frame2
    ∧ ∃ tDraw,
        (Renderer.render (Renderer.update baseRenderer c1Msgs) (100, 100)).1
          = (applyUpdateLists
              { Renderer.update baseRenderer c1Msgs with
                  current_frame := none, pending_texture_updates := [] }
              (baseRenderer.pending_texture_updates ++ textureListsOf c1Msgs)).1
            ++ tDraw :=
  ⟨(c1_result_channel_drain baseRenderer c1Msgs).1,
   (c1_result_channel_drain baseRenderer c1Msgs).2.1 c1Frame2 rfl,
   (c1_result_channel_drain baseRenderer c1Msgs).2.2 (100, 100) c1Frame2 emptyFrame
     rfl rfl (by decide)⟩

/-! ## Claim C10 -/

/-- C10: a `render` call with no frame received since construction performs
no texture-cache update, issues no device call and leaves the renderer
unchanged; and a successful `render` restores the (possibly re-padded and
re-patched) frame as the current frame rather than consuming it, so a
subsequent `render` call takes the draw path on that same frame again — as
the concrete scenario shows, drawing it a second time with the same device
trace. -/
theorem c10_render_idempotent :
    (∀ (r : Renderer) (framebuffer_size : Nat × Nat),
       r.current_frame = none →
       Renderer.render r framebuffer_size = ([], .ok r))
    ∧ (∀ (r : Renderer) (framebuffer_size : Nat × Nat) (rf : RendererFrame)
         (f : Frame) (r' : Renderer),
       r.current_frame = some rf → rf.frame = some f →
       (Renderer.render r framebuffer_size).2 = .ok r' →
       ∃ f', r'.current_frame = some { rf with frame := some f' }
         ∧ ∀ (fb2 : Nat × Nat),
             Renderer.render r' fb2
               = renderBody r' { rf with frame := some f' } f' fb2)
    ∧ (isOk (Renderer.render c10Renderer (100, 100)).2 = true
       ∧ (Renderer.render c10Renderer (100, 100)).1 = [Event.flush]
       ∧ isOk (Renderer.render c10SecondState (100, 100)).2 = true
       ∧ (Renderer.render c10SecondState (100, 100)).1 = [Event.flush]) := by
  refine ⟨?_, ?_, by decide, by decide, by decide, by decide⟩
  · intro r framebuffer_size h
    rw [Renderer.render, h]
  · intro r framebuffer_size rf f r' hcf hf hres
    rw [Renderer.render, hcf] at hres
    simp only [hf] at hres
    rw [renderBody] at hres
    rcases hupd : (update_texture_cache { r with current_frame := none }).2
        with e | r1 <;> simp only [hupd] at hres
    · exact absurd hres (by simp)
    · rcases hdraw : (draw_tile_frame r1 f framebuffer_size).2 with e | rf1 <;>
        simp only [hdraw] at hres
      · exact absurd hres (by simp)
      · obtain ⟨r2, f1⟩ := rf1
        cases hres
        refine ⟨f1, rfl, ?_⟩
        intro fb2
        rw [Renderer.render]

/-- Witness for C10: the empty-state call is a no-op, and after one
successful render of the trivial frame the next call takes the draw path on
the restored frame. -/
theorem c10_render_idempotent_witness :
    Renderer.render baseRenderer (100, 100) = ([], .ok baseRenderer)
    ∧ ∃ f', c10SecondState.current_frame = some { c10Frame with frame := some f' }
        ∧ ∀ (fb2 : Nat × Nat),
            Renderer.render c10SecondState fb2
              = renderBody c10SecondState { c10Frame with frame := some f' } f' fb2 :=
  ⟨c10_render_idempotent.1 baseRenderer (100, 100) rfl,
   c10_render_idempotent.2.1 c10Renderer (100, 100) c10Frame emptyFrame
     c10SecondState rfl rfl rfl⟩

/-! ## Lemmas about the external-image map (C4) -/

/-- The keys of the external-image map after an insert. -/
theorem extKeys_insertExt_eq (m : List ((Nat × Nat) × TextureId)) (k : Nat × Nat)
    (v : TextureId) :
    extKeys (insertExt m k v)
      = if m.any (fun kv => kv.1 = k) then extKeys m else extKeys m ++ [k] := by
  rw [insertExt]
  split
  · rw [extKeys, List.map_map, extKeys]
    exact List.map_congr_left (fun kv _ => by
      by_cases hkv : kv.1 = k <;> simp [hkv])
  · simp [extKeys]

/-- Membership in the keys after an insert. -/
theorem extKeys_insertExt_mem (m : List ((Nat × Nat) × TextureId)) (k : Nat × Nat)
    (v : TextureId) (k' : Nat × Nat) :
    k' ∈ extKeys (insertExt m k v) ↔ k' ∈ extKeys m ∨ k' = k := by
  rw [extKeys_insertExt_eq]
  split
  · rename_i hany
    rw [List.any_eq_true] at hany
    obtain ⟨kv, hkv, hk⟩ := hany
    simp only [decide_eq_true_eq] at hk
    constructor
    · exact fun h => Or.inl h
    · rintro (h | rfl)
      · exact h
      · rw [← hk]
        exact List.mem_map_of_mem _ hkv
  · simp

/-- Inserting preserves key distinctness. -/
theorem nodup_insertExt (m : List ((Nat × Nat) × TextureId)) (k : Nat × Nat)
    (v : TextureId) (h : (extKeys m).Nodup) : (extKeys (insertExt m k v)).Nodup := by
  rw [extKeys_insertExt_eq]
  split
  · exact h
  · rename_i hany
    have hk : k ∉ extKeys m := by
      intro hmem
      obtain ⟨kv, hkv, hk1⟩ := List.mem_map.mp hmem
      exact hany (List.any_eq_true.mpr ⟨kv, hkv, by simp [hk1]⟩)
    simp [List.nodup_append, h, hk]

/-- An unlock event appears in the drain of the map exactly when its key is
bound. -/
theorem unlock_mem_map (m : List ((Nat × Nat) × TextureId)) (i c : Nat) :
    Event.unlock i c ∈ m.map (fun kv => Event.unlock kv.1.1 kv.1.2)
      ↔ (i, c) ∈ extKeys m := by
  rw [extKeys]
  constructor
  · intro h
    obtain ⟨kv, hkv, heq⟩ := List.mem_map.mp h
    cases heq
    exact List.mem_map_of_mem _ hkv
  · intro h
    obtain ⟨kv, hkv, heq⟩ := List.mem_map.mp h
    refine List.mem_map.mpr ⟨kv, hkv, ?_⟩
    rw [show kv.1.1 = i from by rw [heq], show kv.1.2 = c from by rw [heq]]

/-- Draining a distinct-keyed map unlocks a bound key exactly once. -/
theorem unlock_count_of_nodup (m : List ((Nat × Nat) × TextureId)) (i c : Nat)
    (hnd : (extKeys m).Nodup) (hmem : (i, c) ∈ extKeys m) :
    (m.map (fun kv => Event.unlock kv.1.1 kv.1.2)).count (Event.unlock i c) = 1 := by
  induction m with
  | nil => exact absurd hmem (by simp [extKeys])
  | cons kv m ih =>
    rw [extKeys, List.map_cons, ← extKeys] at hnd hmem
    rw [List.map_cons, List.count_cons]
    rcases List.mem_cons.mp hmem with heq | hmem'
    · have hnotin : (i, c) ∉ extKeys m := by
        rw [heq]
        exact (List.nodup_cons.mp hnd).1
      have hzero : (m.map (fun kv => Event.unlock kv.1.1 kv.1.2)).count
          (Event.unlock i c) = 0 :=
        List.count_eq_zero.mpr (fun hmm => hnotin ((unlock_mem_map m i c).mp hmm))
      rw [hzero]
      simp [show kv.1.1 = i from by rw [← heq], show kv.1.2 = c from by rw [← heq]]
    · have hne : kv.1 ≠ (i, c) := by
        intro hk
        exact (List.nodup_cons.mp hnd).1 (hk ▸ hmem')
      rw [ih (List.nodup_cons.mp hnd).2 hmem']
      have hne2 : ¬ (Event.unlock i c = Event.unlock kv.1.1 kv.1.2) := by
        intro hk
        apply hne
        cases hk
        rfl
      simp [hne2]
      intro h1 h2
      exact hne2 (by rw [h1, h2])

/-- What a successful deferred-resolve loop guarantees: the final map binds
exactly the old keys plus the records' keys, key distinctness is preserved,
the trace locks each record's key once per record, and the trace contains no
unlock. -/
theorem resolveLoop_ok (handler : ExternalImageHandler) (ds : List DeferredResolve) :
    ∀ (images : List ((Nat × Nat) × TextureId)) (rects : List ResourceRect)
      (images' : List ((Nat × Nat) × TextureId)) (rects' : List ResourceRect),
    (resolveLoop handler images rects ds).2 = .ok (images', rects') →
    ((∀ k, k ∈ extKeys images' ↔ k ∈ extKeys images ∨ k ∈ recordKeys ds)
     ∧ ((extKeys images).Nodup → (extKeys images').Nodup)
     ∧ (∀ i c, (resolveLoop handler images rects ds).1.count (Event.lock i c)
         = (recordKeys ds).count (i, c))
     ∧ (∀ e ∈ (resolveLoop handler images rects ds).1, e.isUnlock = false)) := by
  induction ds with
  | nil =>
    intro images rects images' rects' h
    rw [resolveLoop] at h ⊢
    cases h
    exact ⟨fun k => by simp [recordKeys], fun h => h,
           fun i c => by simp [recordKeys], by simp⟩
  | cons d ds ih =>
    intro images rects images' rects' h
    rcases hext : d.image_properties.external_image with _ | ext
    · simp only [resolveLoop, hext] at h
      exact absurd h (by simp)
    simp only [resolveLoop, hext] at h ⊢
    by_cases htyp : ext.image_type = .ExternalBuffer
    · rw [if_pos htyp] at h
      exact absurd h (by simp)
    rw [if_neg htyp] at h ⊢
    rcases hsrc : (handler ext.id ext.channel_index).source with raw | tid
    · exact absurd h (by simp [hsrc])
    simp only [hsrc] at h ⊢
    rcases hrect : rects[d.resource_address]? with _ | rect
    · exact absurd h (by simp [hrect])
    simp only [hrect] at h ⊢
    obtain ⟨hkeys, hnodup, hcount, hnounlock⟩ := ih _ _ _ _ h
    have hrk : recordKeys (d :: ds)
        = (ext.id, ext.channel_index) :: recordKeys ds := by
      simp [recordKeys, hext]
    refine ⟨?_, ?_, ?_, ?_⟩
    · intro k
      rw [hkeys k, extKeys_insertExt_mem, hrk]
      simp only [List.mem_cons]
      tauto
    · intro hnd
      exact hnodup (nodup_insertExt _ _ _ hnd)
    · intro i c
      rw [List.singleton_append, List.count_cons, hcount i c, hrk,
        List.count_cons]
      congr 1
      by_cases hi : ext.id = i <;> by_cases hc : ext.channel_index = c <;>
        simp [hi, hc, Prod.ext_iff]
    · intro e he
      rw [List.singleton_append] at he
      rcases List.mem_cons.mp he with rfl | hmem
      · rfl
      · exact hnounlock e hmem

/-- Field bookkeeping of a successful `update_deferred_resolves`. -/
theorem update_deferred_resolves_ok (r : Renderer) (f : Frame) (r1 : Renderer)
    (f1 : Frame) (h : (update_deferred_resolves r f).2 = .ok (r1, f1)) :
    r1.external_image_handler = r.external_image_handler
    ∧ r1.clear_framebuffer = r.clear_framebuffer
    ∧ r1.clear_color = r.clear_color
    ∧ r1.cache_texture_id_map = r.cache_texture_id_map
    ∧ r1.dummy_cache_texture_id = r.dummy_cache_texture_id
    ∧ r1.dummy_cache_texture_a8_id = r.dummy_cache_texture_a8_id
    ∧ f1.passes = f.passes
    ∧ f1.background_color = f.background_color
    ∧ f1.window_size = f.window_size
    ∧ f1.cache_size = f.cache_size
    ∧ f1.deferred_resolves = f.deferred_resolves := by
  rw [update_deferred_resolves] at h
  split at h
  · cases h
    exact ⟨rfl, rfl, rfl, rfl, rfl, rfl, rfl, rfl, rfl, rfl, rfl⟩
  · rcases hh : r.external_image_handler with _ | handler <;> rw [hh] at h
    · exact absurd h (by simp)
    · rcases hres : (resolveLoop handler r.external_images f.gpu_resource_rects
          f.deferred_resolves).2 with e | ir <;> simp only [hres] at h
      · exact absurd h (by simp)
      · obtain ⟨images, rects⟩ := ir
        cases h
        exact ⟨rfl, rfl, rfl, rfl, rfl, rfl, rfl, rfl, rfl, rfl, rfl⟩

/-! ## Event-shape lemmas for the drawing segments -/

/-- GPU data uploads are sampler writes: never lock, unlock or clear. -/
theorem gpu_init_events {α : Type} (image_format : ImageFormat)
    (sampler : TextureSampler) (items_per_row : Nat) (defaultItem : α)
    (data : List α) (size : Nat) :
    ∀ e ∈ (GpuDataTexture_init image_format sampler items_per_row defaultItem
        data size).1,
      e.isLock = false ∧ e.isUnlock = false ∧ e.isClearTarget = false := by
  intro e he
  rw [GpuDataTexture_init] at he
  split at he
  · simp at he
  · split at he
    · rw [List.mem_singleton] at he
      subst he
      exact ⟨rfl, rfl, rfl⟩
    · rw [List.mem_singleton] at he
      subst he
      exact ⟨rfl, rfl, rfl⟩
    · simp at he

/-- `init_frame` leaves everything but the data arrays unchanged and emits
only sampler uploads. -/
theorem init_frame_ok (f f' : Frame) (evs : List Event)
    (h : init_frame f = .ok (f', evs)) :
    f'.passes = f.passes
    ∧ f'.background_color = f.background_color
    ∧ f'.window_size = f.window_size
    ∧ f'.cache_size = f.cache_size
    ∧ f'.deferred_resolves = f.deferred_resolves
    ∧ ∀ e ∈ evs, e.isLock = false ∧ e.isUnlock = false ∧ e.isClearTarget = false := by
  rw [init_frame] at h
  repeat' split at h
  all_goals cases h
  rename_i x1 t1 d1 h1 x2 t2 d2 h2 x3 t3 d3 h3 x4 t4 d4 h4 x5 t5 d5 h5
    x6 t6 d6 h6 x7 t7 d7 h7 x8 t8 d8 h8 x9 t9 d9 h9 x10 t10 d10 h10
  refine ⟨rfl, rfl, rfl, rfl, rfl, ?_⟩
  intro e he
  simp only [List.mem_append] at he
  rcases he with ((((((((he | he) | he) | he) | he) | he) | he) | he) | he) | he
  · exact gpu_init_events _ _ _ _ _ _ e (by rw [h1]; exact he)
  · exact gpu_init_events _ _ _ _ _ _ e (by rw [h2]; exact he)
  · exact gpu_init_events _ _ _ _ _ _ e (by rw [h3]; exact he)
  · exact gpu_init_events _ _ _ _ _ _ e (by rw [h4]; exact he)
  · exact gpu_init_events _ _ _ _ _ _ e (by rw [h5]; exact he)
  · exact gpu_init_events _ _ _ _ _ _ e (by rw [h6]; exact he)
  · exact gpu_init_events _ _ _ _ _ _ e (by rw [h7]; exact he)
  · exact gpu_init_events _ _ _ _ _ _ e (by rw [h8]; exact he)
  · exact gpu_init_events _ _ _ _ _ _ e (by rw [h9]; exact he)
  · exact gpu_init_events _ _ _ _ _ _ e (by rw [h10]; exact he)

/-- The texture-binding loop emits only bind calls. -/
theorem bindLoop_events (r : Renderer) (yuv : Bool) :
    ∀ (i : Nat) (ts : List SourceTexture), ∀ e ∈ (bindLoop r yuv i ts).1,
      e.isLock = false ∧ e.isUnlock = false ∧ e.isClearTarget = false := by
  intro i ts
  induction ts generalizing i with
  | nil => intro e he; simp [bindLoop] at he
  | cons t ts ih =>
    intro e he
    rw [bindLoop] at he
    split at he
    · simp at he
    · rw [List.mem_cons] at he
      rcases he with rfl | he
      · cases yuv <;> exact ⟨rfl, rfl, rfl⟩
      · exact ih (i + 1) e he

/-- `submit_batch` emits only flush, bind, dither-bind and draw calls: never
lock, unlock or clear. -/
theorem submit_batch_events (r : Renderer) (batch : PrimitiveBatch) :
    ∀ e ∈ (submit_batch r batch).1,
      e.isLock = false ∧ e.isUnlock = false ∧ e.isClearTarget = false := by
  intro e he
  simp only [submit_batch] at he
  split at he
  · simp at he
  · split at he
    · rw [List.mem_append] at he
      rcases he with he | he
      · split at he
        · rw [List.mem_singleton] at he
          subst he
          exact ⟨rfl, rfl, rfl⟩
        · simp at he
      · exact bindLoop_events r _ 0 batch.key.textures e he
    · split at he
      · rw [List.mem_append] at he
        rcases he with he | he
        · split at he
          · rw [List.mem_singleton] at he
            subst he
            exact ⟨rfl, rfl, rfl⟩
          · simp at he
        · exact bindLoop_events r _ 0 batch.key.textures e he
      · simp only [List.mem_append, List.mem_singleton] at he
        rcases he with ((he | he) | he) | rfl
        · split at he
          · rw [List.mem_singleton] at he
            subst he
            exact ⟨rfl, rfl, rfl⟩
          · simp at he
        · exact bindLoop_events r _ 0 batch.key.textures e he
        · split at he
          · rw [List.mem_singleton] at he
            subst he
            exact ⟨rfl, rfl, rfl⟩
          · simp at he
        · exact ⟨rfl, rfl, rfl⟩

/-- Batch submission lists inherit the event shape of `submit_batch`. -/
theorem submitList_events (r : Renderer) (batches : List PrimitiveBatch) :
    ∀ e ∈ (submitList r batches).1,
      e.isLock = false ∧ e.isUnlock = false ∧ e.isClearTarget = false := by
  induction batches with
  | nil => intro e he; simp [submitList] at he
  | cons b bs ih =>
    intro e he
    rw [submitList] at he
    split at he
    · exact submit_batch_events r b e he
    · rw [List.mem_append] at he
      rcases he with he | he
      · exact submit_batch_events r b e he
      · exact ih e he

/-- A colour-target draw never locks or unlocks. -/
theorem draw_color_target_events (r : Renderer) (rt : Option (TextureId × Nat))
    (target : ColorRenderTarget) (clear_color : Option ColorF) :
    ∀ e ∈ (draw_color_target r rt target clear_color).1,
      e.isLock = false ∧ e.isUnlock = false := by
  intro e he
  simp only [draw_color_target] at he
  split at he
  · rw [List.mem_append] at he
    rcases he with he | he
    · split at he
      · simp at he
      · rw [List.mem_singleton] at he
        subst he
        exact ⟨rfl, rfl⟩
    · have hs := submitList_events r target.opaque_batches e he
      exact ⟨hs.1, hs.2.1⟩
  · simp only [List.mem_append] at he
    rcases he with (he | he) | he
    · split at he
      · simp at he
      · rw [List.mem_singleton] at he
        subst he
        exact ⟨rfl, rfl⟩
    · have hs := submitList_events r target.opaque_batches e he
      exact ⟨hs.1, hs.2.1⟩
    · have hs := submitList_events r target.alpha_batches e he
      exact ⟨hs.1, hs.2.1⟩

/-- The clear calls of a successful colour-target draw: exactly one when the
destination is the default framebuffer, none otherwise. -/
theorem draw_color_target_clears (r : Renderer) (rt : Option (TextureId × Nat))
    (target : ColorRenderTarget) (clear_color : Option ColorF) (u : Unit)
    (hok : (draw_color_target r rt target clear_color).2 = .ok u) :
    (draw_color_target r rt target clear_color).1.filter Event.isClearTarget
      = (if rt.isSome then [] else [Event.clear_target clear_color (some 1)]) := by
  simp only [draw_color_target] at hok ⊢
  rcases hopq : (submitList r target.opaque_batches).2 with e | u1
  · simp only [hopq] at hok
    exact absurd hok (by simp)
  · simp only [hopq] at hok ⊢
    rw [List.filter_append, List.filter_append]
    have h1 : (submitList r target.opaque_batches).1.filter Event.isClearTarget = [] :=
      List.filter_eq_nil_iff.mpr (fun e he => by
        simp [(submitList_events r target.opaque_batches e he).2.2])
    have h2 : (submitList r target.alpha_batches).1.filter Event.isClearTarget = [] :=
      List.filter_eq_nil_iff.mpr (fun e he => by
        simp [(submitList_events r target.alpha_batches e he).2.2])
    rw [h1, h2, List.append_nil, List.append_nil]
    cases rt with
    | none => simp [Event.isClearTarget]
    | some x => simp [Event.isClearTarget]

/-- The colour-target loop never locks or unlocks. -/
theorem colorTargetLoop_events (r : Renderer) (pass : Pass)
    (clear_color : Option ColorF) :
    ∀ (i : Nat) (ts : List ColorRenderTarget),
      ∀ e ∈ (colorTargetLoop r pass clear_color i ts).1,
        e.isLock = false ∧ e.isUnlock = false := by
  intro i ts
  induction ts generalizing i with
  | nil => intro e he; simp [colorTargetLoop] at he
  | cons t ts ih =>
    intro e he
    rw [colorTargetLoop] at he
    split at he
    · exact draw_color_target_events r _ t clear_color e he
    · rw [List.mem_append] at he
      rcases he with he | he
      · exact draw_color_target_events r _ t clear_color e he
      · exact ih (i + 1) e he

/-- A successful colour-target loop of a pass that draws to the default
framebuffer clears once per target, with the pass's clear colour. -/
theorem colorTargetLoop_clears (r : Renderer) (pass : Pass)
    (clear_color : Option ColorF) (hnone : pass.color_texture_id = none) :
    ∀ (i : Nat) (ts : List ColorRenderTarget),
      (colorTargetLoop r pass clear_color i ts).2 = .ok () →
      (colorTargetLoop r pass clear_color i ts).1.filter Event.isClearTarget
        = List.replicate ts.length (Event.clear_target clear_color (some 1)) := by
  intro i ts
  induction ts generalizing i with
  | nil => intro _; simp [colorTargetLoop]
  | cons t ts ih =>
    intro h
    rw [colorTargetLoop] at h ⊢
    rcases hstep : (draw_color_target r
        (pass.color_texture_id.map fun id => (id, i)) t clear_color).2 with e | u
    · simp only [hstep] at h
      exact absurd h (by simp)
    · simp only [hstep] at h ⊢
      rw [List.filter_append, ih (i + 1) h,
        draw_color_target_clears r _ t clear_color u hstep]
      simp [hnone, List.replicate_succ]

/-- A successful pass iteration changes only the pools of the renderer
state. -/
theorem processPass_ok_state (r : Renderer) (ctx : PassCtx) (sc sa : TextureId)
    (pass : Pass) (r' : Renderer) (sc' sa' : TextureId) (p' : Pass)
    (h : (processPass r ctx sc sa pass).2 = .ok (r', sc', sa', p')) :
    r'.external_images = r.external_images
    ∧ r'.external_image_handler = r.external_image_handler
    ∧ r'.clear_framebuffer = r.clear_framebuffer
    ∧ r'.clear_color = r.clear_color
    ∧ r'.cache_texture_id_map = r.cache_texture_id_map
    ∧ r'.dummy_cache_texture_id = r.dummy_cache_texture_id
    ∧ r'.dummy_cache_texture_a8_id = r.dummy_cache_texture_a8_id
    ∧ r'.next_texture_id = r.next_texture_id := by
  simp only [processPass] at h
  split at h
  · exact absurd h (by simp)
  · split at h
    · exact absurd h (by simp)
    · cases h
      exact ⟨rfl, rfl, rfl, rfl, rfl, rfl, rfl, rfl⟩

/-- A pass iteration never locks or unlocks. -/
theorem processPass_events (r : Renderer) (ctx : PassCtx) (sc sa : TextureId)
    (pass : Pass) :
    ∀ e ∈ (processPass r ctx sc sa pass).1,
      e.isLock = false ∧ e.isUnlock = false := by
  intro e he
  simp only [processPass] at he
  split at he
  · rw [List.mem_cons, List.mem_singleton] at he
    rcases he with rfl | rfl
    · exact ⟨rfl, rfl⟩
    · exact ⟨rfl, rfl⟩
  · split at he <;>
    · rw [List.mem_append] at he
      rcases he with he | he
      · rw [List.mem_cons, List.mem_singleton] at he
        rcases he with rfl | rfl
        · exact ⟨rfl, rfl⟩
        · exact ⟨rfl, rfl⟩
      · exact colorTargetLoop_events r pass _ 0 pass.color_targets e he

/-- The clear calls of a successful framebuffer-pass iteration: one per
colour target, with the background-or-fallback colour. -/
theorem processPass_clears (r : Renderer) (ctx : PassCtx) (sc sa : TextureId)
    (pass : Pass) (res : Renderer × TextureId × TextureId × Pass)
    (hfb : pass.is_framebuffer = true) (hnone : pass.color_texture_id = none)
    (h : (processPass r ctx sc sa pass).2 = .ok res) :
    (processPass r ctx sc sa pass).1.filter Event.isClearTarget
      = List.replicate pass.color_targets.length
          (Event.clear_target
            (framebufferClearColor r.clear_framebuffer r.clear_color
              ctx.needs_clear ctx.background_color) (some 1)) := by
  simp only [processPass, hfb, if_true] at h ⊢
  split at h
  · exact absurd h (by simp)
  · rename_i hcond
    rw [if_neg hcond]
    rcases hcolors : (colorTargetLoop r pass
        (framebufferClearColor r.clear_framebuffer r.clear_color ctx.needs_clear
          ctx.background_color) 0 pass.color_targets).2 with e | u
    · simp only [hcolors] at h
      exact absurd h (by simp)
    · simp only [hcolors] at h ⊢
      rw [List.filter_append]
      cases u
      rw [colorTargetLoop_clears r pass _ hnone 0 pass.color_targets hcolors]
      rfl

/-- A successful pass loop changes only the pools of the renderer state. -/
theorem runPasses_ok_state (ctx : PassCtx) (passes : List Pass) :
    ∀ (r : Renderer) (sc sa : TextureId) (r' : Renderer) (ps' : List Pass),
    (runPasses r ctx sc sa passes).2 = .ok (r', ps') →
    r'.external_images = r.external_images
    ∧ r'.external_image_handler = r.external_image_handler
    ∧ r'.clear_framebuffer = r.clear_framebuffer
    ∧ r'.clear_color = r.clear_color
    ∧ r'.cache_texture_id_map = r.cache_texture_id_map
    ∧ r'.next_texture_id = r.next_texture_id := by
  induction passes with
  | nil =>
    intro r sc sa r' ps' h
    rw [runPasses] at h
    cases h
    exact ⟨rfl, rfl, rfl, rfl, rfl, rfl⟩
  | cons p ps ih =>
    intro r sc sa r' ps' h
    rw [runPasses] at h
    rcases hstep : (processPass r ctx sc sa p).2 with e | res
    · simp only [hstep] at h
      exact absurd h (by simp)
    · obtain ⟨r1, sc1, sa1, p1⟩ := res
      simp only [hstep] at h
      rcases hrest : (runPasses r1 ctx sc1 sa1 ps).2 with e | res2
      · simp only [hrest] at h
        exact absurd h (by simp)
      · obtain ⟨r2, ps2⟩ := res2
        simp only [hrest] at h
        cases h
        obtain ⟨g1, g2, g3, g4, g5, _, _, g8⟩ :=
          processPass_ok_state r ctx sc sa p r1 sc1 sa1 p1 hstep
        obtain ⟨k1, k2, k3, k4, k5, k6⟩ := ih r1 sc1 sa1 _ _ hrest
        exact ⟨k1.trans g1, k2.trans g2, k3.trans g3, k4.trans g4,
               k5.trans g5, k6.trans g8⟩

/-- The pass loop never locks or unlocks. -/
theorem runPasses_events (ctx : PassCtx) (passes : List Pass) :
    ∀ (r : Renderer) (sc sa : TextureId),
      ∀ e ∈ (runPasses r ctx sc sa passes).1,
        e.isLock = false ∧ e.isUnlock = false := by
  induction passes with
  | nil => intro r sc sa e he; simp [runPasses] at he
  | cons p ps ih =>
    intro r sc sa e he
    simp only [runPasses] at he
    split at he
    · exact processPass_events r ctx sc sa p e he
    · split at he <;>
      · rw [List.mem_append] at he
        rcases he with he | he
        · exact processPass_events r ctx sc sa p e he
        · exact ih _ _ _ e he

/-- Every framebuffer pass of a successful pass loop contributes a trace
segment whose clear calls are exactly one per colour target, with the
background-or-fallback colour. -/
theorem runPasses_clears (ctx : PassCtx) (passes : List Pass) :
    ∀ (r : Renderer) (sc sa : TextureId) (r' : Renderer) (ps' : List Pass)
      (p : Pass),
    p ∈ passes → p.is_framebuffer = true → p.color_texture_id = none →
    (runPasses r ctx sc sa passes).2 = .ok (r', ps') →
    ∃ t1 tp t2, (runPasses r ctx sc sa passes).1 = t1 ++ tp ++ t2
      ∧ tp.filter Event.isClearTarget
          = List.replicate p.color_targets.length
              (Event.clear_target
                (framebufferClearColor r.clear_framebuffer r.clear_color
                  ctx.needs_clear ctx.background_color) (some 1)) := by
  induction passes with
  | nil =>
    intro r sc sa r' ps' p hp
    exact absurd hp (by simp)
  | cons q ps ih =>
    intro r sc sa r' ps' p hp hfb hnone h
    rw [runPasses] at h ⊢
    rcases hstep : (processPass r ctx sc sa q).2 with e | res
    · simp only [hstep] at h
      exact absurd h (by simp)
    · obtain ⟨r1, sc1, sa1, p1⟩ := res
      simp only [hstep] at h ⊢
      rcases hrest : (runPasses r1 ctx sc1 sa1 ps).2 with e | res2
      · simp only [hrest] at h
        exact absurd h (by simp)
      · obtain ⟨r2, ps2⟩ := res2
        simp only [hrest] at h ⊢
        rcases List.mem_cons.mp hp with rfl | hp'
        · refine ⟨[], (processPass r ctx sc sa p).1,
            (runPasses r1 ctx sc1 sa1 ps).1, by simp, ?_⟩
          exact processPass_clears r ctx sc sa p _ hfb hnone hstep
        · obtain ⟨t1, tp, t2, hsplit, hfilter⟩ :=
            ih r1 sc1 sa1 r2 ps2 p hp' hfb hnone hrest
          refine ⟨(processPass r ctx sc sa q).1 ++ t1, tp, t2, ?_, ?_⟩
          · rw [hsplit]
            simp [List.append_assoc]
          · obtain ⟨_, _, g3, g4, _, _, _, _⟩ :=
              processPass_ok_state r ctx sc sa q r1 sc1 sa1 p1 hstep
            rw [hfilter, g3, g4]

/-- A pass with no target needs and empty target-id slots passes through
allocation unchanged, allocating nothing. -/
theorem allocatePass_skip (r : Renderer) (p : Pass)
    (hc : p.needs_color = false) (ha : p.needs_alpha = false)
    (h1 : p.color_texture_id = none) (h2 : p.alpha_texture_id = none) :
    allocatePass r p = ([], .ok (r, p)) := by
  simp [allocatePass, Pass.needs_render_target_kind, hc, ha, h1, h2]

/-- Successful allocation changes only the pools and the id counter. -/
theorem allocatePass_ok_state (r : Renderer) (p : Pass) (r' : Renderer) (p' : Pass)
    (h : (allocatePass r p).2 = .ok (r', p')) :
    r'.external_images = r.external_images
    ∧ r'.external_image_handler = r.external_image_handler
    ∧ r'.clear_framebuffer = r.clear_framebuffer
    ∧ r'.clear_color = r.clear_color
    ∧ r'.cache_texture_id_map = r.cache_texture_id_map := by
  simp only [allocatePass] at h
  repeat' split at h
  all_goals cases h
  all_goals exact ⟨rfl, rfl, rfl, rfl, rfl⟩

/-- Allocation emits only texture-creation events. -/
theorem allocatePass_creates (r : Renderer) (p : Pass) :
    ∀ e ∈ (allocatePass r p).1, e.isCreateTexture = true := by
  intro e he
  simp only [allocatePass] at he
  repeat' split at he
  all_goals simp only [List.mem_append, List.mem_singleton, List.not_mem_nil,
    false_or, or_false] at he
  all_goals first
    | exact he.elim
    | (subst he; rfl)
    | (rcases he with rfl | rfl <;> rfl)

/-- A creation event is not a lock, unlock or clear. -/
theorem create_event_benign (e : Event) (h : e.isCreateTexture = true) :
    e.isLock = false ∧ e.isUnlock = false ∧ e.isClearTarget = false := by
  cases e <;> simp_all [Event.isCreateTexture, Event.isLock, Event.isUnlock,
    Event.isClearTarget]

/-- Successful whole-frame allocation changes only pools and the counter. -/
theorem allocatePasses_ok_state (passes : List Pass) :
    ∀ (r : Renderer) (r' : Renderer) (ps' : List Pass),
    (allocatePasses r passes).2 = .ok (r', ps') →
    r'.external_images = r.external_images
    ∧ r'.external_image_handler = r.external_image_handler
    ∧ r'.clear_framebuffer = r.clear_framebuffer
    ∧ r'.clear_color = r.clear_color
    ∧ r'.cache_texture_id_map = r.cache_texture_id_map := by
  induction passes with
  | nil =>
    intro r r' ps' h
    rw [allocatePasses] at h
    cases h
    exact ⟨rfl, rfl, rfl, rfl, rfl⟩
  | cons p ps ih =>
    intro r r' ps' h
    rw [allocatePasses] at h
    rcases hstep : (allocatePass r p).2 with e | res
    · simp only [hstep] at h
      exact absurd h (by simp)
    · obtain ⟨r1, p1⟩ := res
      simp only [hstep] at h
      rcases hrest : (allocatePasses r1 ps).2 with e | res2
      · simp only [hrest] at h
        exact absurd h (by simp)
      · obtain ⟨r2, ps2⟩ := res2
        simp only [hrest] at h
        cases h
        obtain ⟨g1, g2, g3, g4, g5⟩ := allocatePass_ok_state r p r1 p1 hstep
        obtain ⟨k1, k2, k3, k4, k5⟩ := ih r1 _ _ hrest
        exact ⟨k1.trans g1, k2.trans g2, k3.trans g3, k4.trans g4, k5.trans g5⟩

/-- Whole-frame allocation emits only texture-creation events. -/
theorem allocatePasses_creates (passes : List Pass) :
    ∀ (r : Renderer), ∀ e ∈ (allocatePasses r passes).1,
      e.isCreateTexture = true := by
  induction passes with
  | nil => intro r e he; simp [allocatePasses] at he
  | cons p ps ih =>
    intro r e he
    simp only [allocatePasses] at he
    split at he
    · exact allocatePass_creates r p e he
    · split at he <;>
      · rw [List.mem_append] at he
        rcases he with he | he
        · exact allocatePass_creates r p e he
        · exact ih _ e he

/-- A pass that needs no render target survives allocation unchanged and
stays in the pass list. -/
theorem allocatePasses_mem (passes : List Pass) :
    ∀ (r : Renderer) (r' : Renderer) (ps' : List Pass) (p : Pass),
    p ∈ passes →
    p.needs_color = false → p.needs_alpha = false →
    p.color_texture_id = none → p.alpha_texture_id = none →
    (allocatePasses r passes).2 = .ok (r', ps') →
    p ∈ ps' := by
  induction passes with
  | nil =>
    intro r r' ps' p hp
    exact absurd hp (by simp)
  | cons q ps ih =>
    intro r r' ps' p hp hc ha h1 h2 h
    rw [allocatePasses] at h
    rcases hstep : (allocatePass r q).2 with e | res
    · simp only [hstep] at h
      exact absurd h (by simp)
    · obtain ⟨r1, q1⟩ := res
      simp only [hstep] at h
      rcases hrest : (allocatePasses r1 ps).2 with e | res2
      · simp only [hrest] at h
        exact absurd h (by simp)
      · obtain ⟨r2, ps2⟩ := res2
        simp only [hrest] at h
        cases h
        rcases List.mem_cons.mp hp with rfl | hp'
        · have hskip := allocatePass_skip r p hc ha h1 h2
          rw [hskip] at hstep
          simp only [] at hstep
          cases hstep
          exact List.mem_cons_self _ _
        · exact List.mem_cons_of_mem _ (ih r1 _ _ p hp' hc ha h1 h2 hrest)

/-- Render-target initialisation emits only `init_texture` calls. -/
theorem initPassTextures_events (cache_size : Nat × Nat) (passes : List Pass) :
    ∀ e ∈ initPassTextures cache_size passes,
      e.isLock = false ∧ e.isUnlock = false ∧ e.isClearTarget = false := by
  intro e he
  simp only [initPassTextures, List.mem_flatten, List.mem_map] at he
  obtain ⟨l, ⟨p, hp, rfl⟩, hel⟩ := he
  rw [List.mem_append] at hel
  rcases hel with hel | hel <;>
    (obtain ⟨tid, htid, rfl⟩ := List.mem_map.mp hel; exact ⟨rfl, rfl, rfl⟩)

/-- A successful drain of the external images unlocks each bound key and
empties the map. -/
theorem unlock_external_images_ok (r : Renderer) (r' : Renderer)
    (h : (unlock_external_images r).2 = .ok r') :
    (unlock_external_images r).1
      = r.external_images.map (fun kv => Event.unlock kv.1.1 kv.1.2)
    ∧ r'.external_images = [] := by
  rw [unlock_external_images] at h
  split at h
  · rename_i hemp
    cases h
    have hnil : r.external_images = [] := by
      cases he : r.external_images with
      | nil => rfl
      | cons a l => rw [he] at hemp; simp at hemp
    refine ⟨?_, hnil⟩
    rw [unlock_external_images, if_pos hemp, hnil]
    rfl
  · rename_i hemp
    rcases hh : r.external_image_handler with _ | handler <;> simp only [hh] at h
    · exact absurd h (by simp)
    · cases h
      refine ⟨?_, rfl⟩
      rw [unlock_external_images, if_neg hemp]
      simp only [hh]

/-- Draining the external-image map never touches the render-target pools. -/
theorem unlock_external_images_pools (r : Renderer) (r' : Renderer)
    (h : (unlock_external_images r).2 = .ok r') :
    r'.color_render_targets = r.color_render_targets
    ∧ r'.alpha_render_targets = r.alpha_render_targets := by
  rw [unlock_external_images] at h
  split at h
  · cases h
    exact ⟨rfl, rfl⟩
  · rcases hh : r.external_image_handler with _ | handler <;> simp only [hh] at h
    · cases h
    · cases h
      exact ⟨rfl, rfl⟩

/-! ## Claim C9 -/

/-- C9: for every pass entering target assignment with empty texture-id
slots, acquisition pops the most recently pushed handle from the
kind-matching free list when it is non-empty — allocating no texture of that
kind — and creates a fresh native texture of that kind's format exactly when
the list is empty, for the colour and the alpha kind alike; each pass
iteration pushes its released targets back onto the matching pools; a
successful draw with passes leaves both pools as the reverses of the lists
produced by the pass loop; and in the two-consecutive-frames scenario — each
frame one pass requiring a colour target — the first draw creates one
texture, the pass releases it back (pool holds native id 10 after the
frame), and the second frame's draw creates no texture and re-initialises
the recycled handle 10. -/
theorem c9_render_target_pool :
    (∀ (r : Renderer) (p : Pass) (r' : Renderer) (p' : Pass),
       p.color_texture_id = none → p.alpha_texture_id = none →
       (allocatePass r p).2 = .ok (r', p') →
       ((p.needs_color = true →
           (r.color_render_targets ≠ [] →
              p'.color_texture_id = r.color_render_targets.getLast?
              ∧ r'.color_render_targets = r.color_render_targets.dropLast
              ∧ (allocatePass r p).1.countP (Event.createsFormat .RGBA8) = 0)
           ∧ (r.color_render_targets = [] →
              p'.color_texture_id = some r.next_texture_id
              ∧ Event.create_texture_id r.next_texture_id .RGBA8
                  ∈ (allocatePass r p).1
              ∧ (allocatePass r p).1.countP (Event.createsFormat .RGBA8) = 1))
        ∧ (p.needs_alpha = true →
           (r.alpha_render_targets ≠ [] →
              p'.alpha_texture_id = r.alpha_render_targets.getLast?
              ∧ r'.alpha_render_targets = r.alpha_render_targets.dropLast
              ∧ (allocatePass r p).1.countP (Event.createsFormat .A8) = 0)
           ∧ (r.alpha_render_targets = [] →
              (∃ tid, p'.alpha_texture_id = some tid
                 ∧ Event.create_texture_id tid .A8 ∈ (allocatePass r p).1)
              ∧ (allocatePass r p).1.countP (Event.createsFormat .A8) = 1))))
    ∧ (∀ (r : Renderer) (ctx : PassCtx) (sc sa : TextureId) (pass : Pass)
         (r' : Renderer) (sc' sa' : TextureId) (p' : Pass),
       (processPass r ctx sc sa pass).2 = .ok (r', sc', sa', p') →
       r'.color_render_targets
           = r.color_render_targets ++ pass.color_texture_id.toList
       ∧ r'.alpha_render_targets
           = r.alpha_render_targets ++ pass.alpha_texture_id.toList
       ∧ p'.color_texture_id = none ∧ p'.alpha_texture_id = none)
    ∧ (∀ (r : Renderer) (f : Frame) (fb : Nat × Nat) (r' : Renderer)
         (f' : Frame),
       f.passes.isEmpty = false →
       (draw_tile_frame r f fb).2 = .ok (r', f') →
       ∃ (r1 : Renderer) (f1 : Frame) (r2 : Renderer) (passes2 : List Pass)
         (f2 : Frame) (up : List Event) (r3 : Renderer) (passes3 : List Pass),
         (update_deferred_resolves r f).2 = .ok (r1, f1)
         ∧ (allocatePasses r1 f1.passes).2 = .ok (r2, passes2)
         ∧ init_frame { f1 with passes := passes2 } = .ok (f2, up)
         ∧ (runPasses r2
              { cache_size := f2.cache_size,
                background_color := f2.background_color,
                needs_clear :=
                  f1.window_size.1 < fb.1 || f1.window_size.2 < fb.2,
                framebuffer_size := fb }
              r2.dummy_cache_texture_id r2.dummy_cache_texture_a8_id
              f2.passes).2 = .ok (r3, passes3)
         ∧ r'.color_render_targets = r3.color_render_targets.reverse
         ∧ r'.alpha_render_targets = r3.alpha_render_targets.reverse)
    ∧ (isOk (draw_tile_frame baseRenderer c9Frame (100, 100)).2 = true
       ∧ (draw_tile_frame baseRenderer c9Frame (100, 100)).1.countP
           Event.isCreateTexture = 1
       ∧ c9State1.color_render_targets = [10]
       ∧ isOk (draw_tile_frame c9State1 c9Frame (100, 100)).2 = true
       ∧ (draw_tile_frame c9State1 c9Frame (100, 100)).1.countP
           Event.isCreateTexture = 0
       ∧ Event.init_texture 10 64 64 .RGBA8 .Linear (.LayerRenderTarget 1) none
           ∈ (draw_tile_frame c9State1 c9Frame (100, 100)).1) := by
  refine ⟨?_, ?_, ?_, ?_⟩
  · intro r p r' p' h1 h2 hok
    cases hc : p.needs_color with
    | true =>
      rcases hcl : r.color_render_targets.getLast? with _ | ctid
      · have hempc : r.color_render_targets = [] := List.getLast?_eq_none_iff.mp hcl
        cases ha : p.needs_alpha with
        | true =>
          rcases hal : r.alpha_render_targets.getLast? with _ | atid
          · have hempa : r.alpha_render_targets = [] :=
              List.getLast?_eq_none_iff.mp hal
            have hval : allocatePass r p
                = ([Event.create_texture_id r.next_texture_id .RGBA8,
                    Event.create_texture_id (r.next_texture_id + 1) .A8],
                   .ok ({ r with next_texture_id := r.next_texture_id + 1 + 1 },
                        { p with color_texture_id := some r.next_texture_id,
                                 alpha_texture_id :=
                                   some (r.next_texture_id + 1) })) := by
              simp [allocatePass, Pass.needs_render_target_kind, h1, h2, hc, ha,
                hcl, hal]
            rw [hval] at hok ⊢
            cases hok
            refine ⟨fun hcol => ⟨fun hne => absurd hempc hne, fun hemp => ?_⟩,
                    fun halp => ⟨fun hnea => absurd hempa hnea, fun hemp2 => ?_⟩⟩
            · exact ⟨rfl, by simp, rfl⟩
            · exact ⟨⟨r.next_texture_id + 1, rfl, by simp⟩, rfl⟩
          · have hval : allocatePass r p
                = ([Event.create_texture_id r.next_texture_id .RGBA8],
                   .ok ({ r with next_texture_id := r.next_texture_id + 1,
                                 alpha_render_targets :=
                                   r.alpha_render_targets.dropLast },
                        { p with color_texture_id := some r.next_texture_id,
                                 alpha_texture_id := some atid })) := by
              simp [allocatePass, Pass.needs_render_target_kind, h1, h2, hc, ha,
                hcl, hal]
            rw [hval] at hok ⊢
            cases hok
            refine ⟨fun hcol => ⟨fun hne => absurd hempc hne, fun hemp => ?_⟩,
                    fun halp => ⟨fun hnea => ⟨rfl, rfl, rfl⟩,
                                 fun hemp2 => ?_⟩⟩
            · exact ⟨rfl, by simp, rfl⟩
            · rw [hemp2] at hal
              simp at hal
        | false =>
          have hval : allocatePass r p
              = ([Event.create_texture_id r.next_texture_id .RGBA8],
                 .ok ({ r with next_texture_id := r.next_texture_id + 1 },
                      { p with color_texture_id := some r.next_texture_id })) := by
            simp [allocatePass, Pass.needs_render_target_kind, h1, h2, hc, ha, hcl]
          rw [hval] at hok ⊢
          cases hok
          refine ⟨fun hcol => ⟨fun hne => absurd hempc hne, fun hemp => ?_⟩,
                  fun halp => absurd halp (by decide)⟩
          exact ⟨rfl, by simp, rfl⟩
      · cases ha : p.needs_alpha with
        | true =>
          rcases hal : r.alpha_render_targets.getLast? with _ | atid
          · have hempa : r.alpha_render_targets = [] :=
              List.getLast?_eq_none_iff.mp hal
            have hval : allocatePass r p
                = ([Event.create_texture_id r.next_texture_id .A8],
                   .ok ({ r with color_render_targets :=
                                   r.color_render_targets.dropLast,
                                 next_texture_id := r.next_texture_id + 1 },
                        { p with color_texture_id := some ctid,
                                 alpha_texture_id :=
                                   some r.next_texture_id })) := by
              simp [allocatePass, Pass.needs_render_target_kind, h1, h2, hc, ha,
                hcl, hal]
            rw [hval] at hok ⊢
            cases hok
            refine ⟨fun hcol => ⟨fun hne => ⟨rfl, rfl, rfl⟩,
                                 fun hemp => ?_⟩,
                    fun halp => ⟨fun hnea => absurd hempa hnea,
                                 fun hemp2 => ?_⟩⟩
            · rw [hemp] at hcl
              simp at hcl
            · exact ⟨⟨r.next_texture_id, rfl, by simp⟩, rfl⟩
          · have hval : allocatePass r p
                = ([], .ok ({ r with color_render_targets :=
                                       r.color_render_targets.dropLast,
                                     alpha_render_targets :=
                                       r.alpha_render_targets.dropLast },
                            { p with color_texture_id := some ctid,
                                     alpha_texture_id := some atid })) := by
              simp [allocatePass, Pass.needs_render_target_kind, h1, h2, hc, ha,
                hcl, hal]
            rw [hval] at hok ⊢
            cases hok
            refine ⟨fun hcol => ⟨fun hne => ⟨rfl, rfl, rfl⟩,
                                 fun hemp => ?_⟩,
                    fun halp => ⟨fun hnea => ⟨rfl, rfl, rfl⟩,
                                 fun hemp2 => ?_⟩⟩
            · rw [hemp] at hcl
              simp at hcl
            · rw [hemp2] at hal
              simp at hal
        | false =>
          have hval : allocatePass r p
              = ([], .ok ({ r with color_render_targets :=
                                     r.color_render_targets.dropLast },
                          { p with color_texture_id := some ctid })) := by
            simp [allocatePass, Pass.needs_render_target_kind, h1, h2, hc, ha, hcl]
          rw [hval] at hok ⊢
          cases hok
          refine ⟨fun hcol => ⟨fun hne => ⟨rfl, rfl, rfl⟩, fun hemp => ?_⟩,
                  fun halp => absurd halp (by decide)⟩
          rw [hemp] at hcl
          simp at hcl
    | false =>
      cases ha : p.needs_alpha with
      | true =>
        rcases hal : r.alpha_render_targets.getLast? with _ | atid
        · have hempa : r.alpha_render_targets = [] :=
            List.getLast?_eq_none_iff.mp hal
          have hval : allocatePass r p
              = ([Event.create_texture_id r.next_texture_id .A8],
                 .ok ({ r with next_texture_id := r.next_texture_id + 1 },
                      { p with alpha_texture_id := some r.next_texture_id })) := by
            simp [allocatePass, Pass.needs_render_target_kind, h1, h2, hc, ha, hal]
          rw [hval] at hok ⊢
          cases hok
          refine ⟨fun hcol => absurd hcol (by decide),
                  fun halp => ⟨fun hnea => absurd hempa hnea, fun hemp2 => ?_⟩⟩
          exact ⟨⟨r.next_texture_id, rfl, by simp⟩, rfl⟩
        · have hval : allocatePass r p
              = ([], .ok ({ r with alpha_render_targets :=
                                     r.alpha_render_targets.dropLast },
                          { p with alpha_texture_id := some atid })) := by
            simp [allocatePass, Pass.needs_render_target_kind, h1, h2, hc, ha, hal]
          rw [hval] at hok ⊢
          cases hok
          refine ⟨fun hcol => absurd hcol (by decide),
                  fun halp => ⟨fun hnea => ⟨rfl, rfl, rfl⟩,
                               fun hemp2 => ?_⟩⟩
          rw [hemp2] at hal
          simp at hal
      | false =>
        refine ⟨fun hcol => absurd hcol (by decide),
                fun halp => absurd halp (by decide)⟩
  · intro r ctx sc sa pass r' sc' sa' p' h
    simp only [processPass] at h
    split at h
    · exact absurd h (by simp)
    · split at h
      · exact absurd h (by simp)
      · cases h
        exact ⟨rfl, rfl, rfl, rfl⟩
  · intro r f fb r' f' hne hfull
    simp only [draw_tile_frame] at hfull
    rcases h0 : (update_deferred_resolves r f).2 with e | rf1
    · simp only [h0] at hfull
      exact absurd hfull (by simp)
    obtain ⟨r1, f1⟩ := rf1
    simp only [h0] at hfull
    have hpe : ¬ f1.passes.isEmpty = true := by
      have hps := (update_deferred_resolves_ok r f r1 f1 h0).2.2.2.2.2.2.1
      rw [hps, hne]
      exact Bool.false_ne_true
    rw [if_neg hpe] at hfull
    rcases h1 : (allocatePasses r1 f1.passes).2 with e | rp
    · simp only [h1] at hfull
      exact absurd hfull (by simp)
    obtain ⟨r2, passes2⟩ := rp
    simp only [h1] at hfull
    rcases h2 : init_frame { f1 with passes := passes2 } with e | fe
    · simp only [h2] at hfull
      exact absurd hfull (by simp)
    obtain ⟨f2, up⟩ := fe
    simp only [h2] at hfull
    split at hfull
    · exact absurd hfull (by simp)
    · rename_i r3 passes3 hloop
      rcases hu : (unlock_external_images { r3 with
          color_render_targets := r3.color_render_targets.reverse,
          alpha_render_targets := r3.alpha_render_targets.reverse }).2 with e | r4
      · simp only [hu] at hfull
        exact absurd hfull (by simp)
      simp only [hu] at hfull
      cases hfull
      obtain ⟨hcp, hap⟩ := unlock_external_images_pools _ _ hu
      exact ⟨r1, f1, r2, passes2, f2, up, r3, passes3, rfl, h1, h2, hloop,
        hcp, hap⟩
  · exact ⟨by decide, by decide, by decide, by decide, by decide, by decide⟩

/-- Witness for C9's pool-acquisition law: with two recycled colour targets
pooled, the pass receives the most recently pushed handle (22), the pool
shrinks to the remaining handle, and no texture is created. -/
theorem c9_render_target_pool_witness :
    ({ c9Pass with color_texture_id := some 22 } : Pass).color_texture_id
        = c9PoolRenderer.color_render_targets.getLast?
    ∧ ({ c9PoolRenderer with color_render_targets := [21] }
          : Renderer).color_render_targets
        = c9PoolRenderer.color_render_targets.dropLast
    ∧ (allocatePass c9PoolRenderer c9Pass).1.countP
        (Event.createsFormat .RGBA8) = 0 :=
  ((c9_render_target_pool.1 c9PoolRenderer c9Pass
      { c9PoolRenderer with color_render_targets := [21] }
      { c9Pass with color_texture_id := some 22 }
      rfl rfl rfl).1 rfl).1 (by decide)

/-- Decomposition of a successful tile-frame draw: the trace is the deferred
resolves, a middle part free of lock and unlock calls, and the final drain of
the external-image map built by the resolve phase; afterwards the map is
empty. -/
theorem draw_tile_frame_shape (r : Renderer) (f : Frame) (fb : Nat × Nat)
    (hok : isOk (draw_tile_frame r f fb).2 = true) :
    ∃ (r1 : Renderer) (f1 : Frame) (tMid : List Event) (rEnd : Renderer),
      (update_deferred_resolves r f).2 = .ok (r1, f1)
      ∧ (draw_tile_frame r f fb).1
          = (update_deferred_resolves r f).1 ++ tMid
            ++ rEnd.external_images.map (fun kv => Event.unlock kv.1.1 kv.1.2)
      ∧ rEnd.external_images = r1.external_images
      ∧ (∀ e ∈ tMid, e.isLock = false ∧ e.isUnlock = false)
      ∧ (∀ (r' : Renderer) (f' : Frame),
          (draw_tile_frame r f fb).2 = .ok (r', f') → r'.external_images = []) := by
  rcases hfull : (draw_tile_frame r f fb).2 with e | rf'
  · rw [hfull] at hok
    simp [isOk] at hok
  obtain ⟨rr, ff⟩ := rf'
  clear hok
  simp only [draw_tile_frame] at hfull ⊢
  rcases h0 : (update_deferred_resolves r f).2 with e | rf1
  · simp only [h0] at hfull
    exact absurd hfull (by simp)
  obtain ⟨r1, f1⟩ := rf1
  simp only [h0] at hfull ⊢
  by_cases hpe : f1.passes.isEmpty = true
  · rw [if_pos hpe] at hfull ⊢
    rcases hu : (unlock_external_images r1).2 with e | r2
    · simp only [hu] at hfull
      exact absurd hfull (by simp)
    simp only [hu] at hfull ⊢
    cases hfull
    obtain ⟨hutrace, huempty⟩ := unlock_external_images_ok r1 _ hu
    refine ⟨r1, ff, [], r1, rfl, ?_, rfl, by simp, ?_⟩
    · rw [hutrace]
      simp
    · intro r' f' hres
      cases hres
      exact huempty
  · rw [if_neg hpe] at hfull ⊢
    rcases h1 : (allocatePasses r1 f1.passes).2 with e | rp
    · simp only [h1] at hfull
      exact absurd hfull (by simp)
    obtain ⟨r2, passes2⟩ := rp
    simp only [h1] at hfull ⊢
    rcases h2 : init_frame { f1 with passes := passes2 } with e | fe
    · simp only [h2] at hfull
      exact absurd hfull (by simp)
    obtain ⟨f2, upEvs⟩ := fe
    simp only [h2] at hfull ⊢
    split at hfull
    · exact absurd hfull (by simp)
    · rename_i r3 passes3 hloop
      simp only [hloop] at hfull ⊢
      rcases hu : (unlock_external_images { r3 with
          color_render_targets := r3.color_render_targets.reverse,
          alpha_render_targets := r3.alpha_render_targets.reverse }).2 with e | r4
      · simp only [hu] at hfull
        exact absurd hfull (by simp)
      simp only [hu] at hfull ⊢
      cases hfull
      obtain ⟨hutrace, huempty⟩ := unlock_external_images_ok _ rr hu
      obtain ⟨hl1, _, _, _, _, _⟩ := runPasses_ok_state _ _ r2 _ _ r3 passes3 hloop
      obtain ⟨ha1, _, _, _, _⟩ := allocatePasses_ok_state f1.passes r1 r2 passes2 h1
      obtain ⟨hfp, _, _, _, _, hup⟩ :=
        init_frame_ok { f1 with passes := passes2 } f2 upEvs h2
      refine ⟨r1, f1,
        (allocatePasses r1 f1.passes).1 ++ initPassTextures f1.cache_size passes2
          ++ upEvs ++ (runPasses r2
            { cache_size := f2.cache_size, background_color := f2.background_color,
              needs_clear := f1.window_size.1 < fb.1 || f1.window_size.2 < fb.2,
              framebuffer_size := fb } r2.dummy_cache_texture_id
            r2.dummy_cache_texture_a8_id f2.passes).1,
        r3, rfl, ?_, ?_, ?_, ?_⟩
      · rw [hutrace]
        simp [List.append_assoc]
      · rw [hl1, ha1]
      · intro e he
        simp only [List.mem_append] at he
        rcases he with ((he | he) | he) | he
        · exact (create_event_benign e (allocatePasses_creates f1.passes r1 e he)).imp
            id (fun h => h.1)
        · have := initPassTextures_events f1.cache_size passes2 e he
          exact ⟨this.1, this.2.1⟩
        · have := hup e he
          exact ⟨this.1, this.2.1⟩
        · exact runPasses_events _ f2.passes r2 _ _ e he
      · intro r' f' hres
        cases hres
        exact huempty

/-- What a successful resolve phase guarantees, starting from an empty
external-image map: the map binds exactly the records' keys, with distinct
keys; the trace locks once per record and never unlocks. -/
theorem update_deferred_resolves_counts (r : Renderer) (f : Frame)
    (r1 : Renderer) (f1 : Frame) (hempty : r.external_images = [])
    (h : (update_deferred_resolves r f).2 = .ok (r1, f1)) :
    (∀ k, k ∈ extKeys r1.external_images ↔ k ∈ recordKeys f.deferred_resolves)
    ∧ (extKeys r1.external_images).Nodup
    ∧ (∀ i c, (update_deferred_resolves r f).1.count (Event.lock i c)
        = (recordKeys f.deferred_resolves).count (i, c))
    ∧ (∀ e ∈ (update_deferred_resolves r f).1, e.isUnlock = false) := by
  rw [update_deferred_resolves] at h
  split at h
  · rename_i hde
    cases h
    have hnil : f.deferred_resolves = [] := by
      cases he : f.deferred_resolves with
      | nil => rfl
      | cons a l => rw [he] at hde; simp at hde
    refine ⟨?_, ?_, ?_, ?_⟩
    · intro k
      rw [hempty, hnil]
      simp [extKeys, recordKeys]
    · rw [hempty]
      simp [extKeys]
    · intro i c
      rw [update_deferred_resolves, if_pos hde, hnil]
      simp [recordKeys]
    · intro e he
      rw [update_deferred_resolves, if_pos hde] at he
      simp at he
  · rename_i hde
    rcases hh : r.external_image_handler with _ | handler <;> simp only [hh] at h
    · exact absurd h (by simp)
    · rcases hloop : (resolveLoop handler r.external_images f.gpu_resource_rects
          f.deferred_resolves).2 with e | ir <;> simp only [hloop] at h
      · exact absurd h (by simp)
      · obtain ⟨images, rects⟩ := ir
        cases h
        obtain ⟨hkeys, hnodup, hcount, hnounlock⟩ :=
          resolveLoop_ok handler f.deferred_resolves _ _ _ _ hloop
        have htr : (update_deferred_resolves r f).1
            = (resolveLoop handler r.external_images f.gpu_resource_rects
                f.deferred_resolves).1 := by
          rw [update_deferred_resolves, if_neg hde]
          simp only [hh]
        refine ⟨?_, ?_, ?_, ?_⟩
        · intro k
          rw [hkeys k, hempty]
          simp [extKeys]
        · exact hnodup (by rw [hempty]; simp [extKeys])
        · intro i c
          rw [htr]
          exact hcount i c
        · intro e he
          rw [htr] at he
          exact hnounlock e he

/-- C4 counterexample: a frame with one deferred resolve for key (1, 0) and a
pass whose batch refers to the unresolved external image (2, 0).  The draw
locks (1, 0), then panics while resolving the batch; the lock is never
released, refuting "unlocked exactly once ... regardless of whether later
steps in the frame fail". -/
theorem c4_counterexample :
    (1, 0) ∈ recordKeys c4FailFrame.deferred_resolves
    ∧ isOk (draw_tile_frame c4Renderer c4FailFrame (100, 100)).2 = false
    ∧ (draw_tile_frame c4Renderer c4FailFrame (100, 100)).1.count
        (Event.lock 1 0) = 1
    ∧ (draw_tile_frame c4Renderer c4FailFrame (100, 100)).1.count
        (Event.unlock 1 0) = 0 := by
  refine ⟨by decide, ?_, ?_, ?_⟩ <;> decide

/-- C4 (amended): for every frame whose draw completes without a fatal
error (starting from an empty external-image map), each external image
locked during the deferred-resolve phase — one lock per record — is unlocked
exactly once before the frame completes, and no lock outlives the frame (the
map is drained); if a later step of the frame panics, the pending locks are
not released (see `c4_counterexample`). -/
theorem c4_deferred_resolve_unlock (r : Renderer) (f : Frame) (fb : Nat × Nat)
    (hempty : r.external_images = [])
    (hok : isOk (draw_tile_frame r f fb).2 = true) :
    (∀ i c, (i, c) ∈ recordKeys f.deferred_resolves →
       (draw_tile_frame r f fb).1.count (Event.unlock i c) = 1)
    ∧ (∀ i c, (draw_tile_frame r f fb).1.count (Event.lock i c)
        = (recordKeys f.deferred_resolves).count (i, c))
    ∧ (∀ (r' : Renderer) (f' : Frame),
        (draw_tile_frame r f fb).2 = .ok (r', f') → r'.external_images = []) := by
  obtain ⟨r1, f1, tMid, rEnd, hres, htrace, hext, hmid, hfinal⟩ :=
    draw_tile_frame_shape r f fb hok
  obtain ⟨hkeys, hnodup, hcount, hnounlock⟩ :=
    update_deferred_resolves_counts r f r1 f1 hempty hres
  refine ⟨?_, ?_, hfinal⟩
  · intro i c hic
    rw [htrace, List.count_append, List.count_append]
    have h0 : (update_deferred_resolves r f).1.count (Event.unlock i c) = 0 :=
      List.count_eq_zero.mpr (fun hmem => by
        have := hnounlock _ hmem
        simp [Event.isUnlock] at this)
    have h1 : tMid.count (Event.unlock i c) = 0 :=
      List.count_eq_zero.mpr (fun hmem => by
        have := (hmid _ hmem).2
        simp [Event.isUnlock] at this)
    rw [h0, h1, hext,
      unlock_count_of_nodup r1.external_images i c hnodup ((hkeys (i, c)).mpr hic)]
  · intro i c
    rw [htrace, List.count_append, List.count_append]
    have h1 : tMid.count (Event.lock i c) = 0 :=
      List.count_eq_zero.mpr (fun hmem => by
        have := (hmid _ hmem).1
        simp [Event.isLock] at this)
    have h2 : (rEnd.external_images.map
        (fun kv => Event.unlock kv.1.1 kv.1.2)).count (Event.lock i c) = 0 :=
      List.count_eq_zero.mpr (fun hmem => by
        obtain ⟨kv, _, heq⟩ := List.mem_map.mp hmem
        simp at heq)
    rw [h1, h2, hcount i c]
    omega

/-- Witness for C4 (amended): the deferred-only frame locks (1, 0) once,
unlocks it once, and drains the map. -/
theorem c4_deferred_resolve_unlock_witness :
    (draw_tile_frame c4Renderer c4OkFrame (100, 100)).1.count
        (Event.unlock 1 0) = 1
    ∧ (draw_tile_frame c4Renderer c4OkFrame (100, 100)).1.count
        (Event.lock 1 0) = (recordKeys c4OkFrame.deferred_resolves).count (1, 0) :=
  ⟨(c4_deferred_resolve_unlock c4Renderer c4OkFrame (100, 100) rfl (by decide)).1
     1 0 (by decide),
   (c4_deferred_resolve_unlock c4Renderer c4OkFrame (100, 100) rfl (by decide)).2.1
     1 0⟩

/-- The framebuffer clear colour in closed form: clear when the option is set
or a clear is forced, with the background colour if present, else the
configured fallback. -/
theorem framebufferClearColor_eq (cf : Bool) (cc : ColorF) (nc : Bool)
    (bg : Option ColorF) :
    framebufferClearColor cf cc nc bg
      = if cf || nc then some (bg.getD cc) else none := by
  cases bg <;> simp [framebufferClearColor]

/-- C8: in every successful tile-frame draw, a framebuffer (final) pass — one
that allocates no pooled target — contributes a trace segment whose clear
calls are exactly one per colour target, carrying the frame's background
colour if present and otherwise the configured clear colour, and issued (as a
colour clear) exactly when the clear-framebuffer option is set or the
frame's window is smaller than the physical framebuffer in either dimension;
otherwise the clear call carries no colour. -/
theorem c8_framebuffer_clear (r : Renderer) (f : Frame) (fb : Nat × Nat)
    (p : Pass) (hp : p ∈ f.passes) (hfb : p.is_framebuffer = true)
    (hnc : p.needs_color = false) (hna : p.needs_alpha = false)
    (hcid : p.color_texture_id = none) (haid : p.alpha_texture_id = none)
    (hok : isOk (draw_tile_frame r f fb).2 = true) :
    ∃ t1 tp t2, (draw_tile_frame r f fb).1 = t1 ++ tp ++ t2
      ∧ tp.filter Event.isClearTarget
          = List.replicate p.color_targets.length
              (Event.clear_target
                (if r.clear_framebuffer
                    || (decide (f.window_size.1 < fb.1)
                        || decide (f.window_size.2 < fb.2)) then
                   some (f.background_color.getD r.clear_color)
                 else none) (some 1)) := by
  rcases hfull : (draw_tile_frame r f fb).2 with e | rf'
  · rw [hfull] at hok
    simp [isOk] at hok
  obtain ⟨rr, ff⟩ := rf'
  clear hok
  simp only [draw_tile_frame] at hfull ⊢
  rcases h0 : (update_deferred_resolves r f).2 with e | rf1
  · simp only [h0] at hfull
    exact absurd hfull (by simp)
  obtain ⟨r1, f1⟩ := rf1
  simp only [h0] at hfull ⊢
  obtain ⟨_, hcf1, hcc1, _, _, _, hps1, hbg1, hws1, _, _⟩ :=
    update_deferred_resolves_ok r f r1 f1 h0
  have hfne : f.passes ≠ [] := by
    intro hnil
    rw [hnil] at hp
    exact absurd hp (by simp)
  have hpe : ¬ f1.passes.isEmpty = true := by
    rw [hps1]
    cases hpp : f.passes with
    | nil => exact absurd hpp hfne
    | cons a l => simp
  rw [if_neg hpe] at hfull ⊢
  rcases halloc : (allocatePasses r1 f1.passes).2 with e | rp
  · simp only [halloc] at hfull
    exact absurd hfull (by simp)
  obtain ⟨r2, passes2⟩ := rp
  simp only [halloc] at hfull ⊢
  obtain ⟨_, _, hcf2, hcc2, _⟩ := allocatePasses_ok_state f1.passes r1 r2 passes2 halloc
  have hp2 : p ∈ passes2 :=
    allocatePasses_mem f1.passes r1 r2 passes2 p (hps1.symm ▸ hp) hnc hna hcid haid
      halloc
  rcases hinit : init_frame { f1 with passes := passes2 } with e | fe
  · simp only [hinit] at hfull
    exact absurd hfull (by simp)
  obtain ⟨f2, upEvs⟩ := fe
  simp only [hinit] at hfull ⊢
  obtain ⟨hfp, hfbg, hfws, hfcs, _, _⟩ := init_frame_ok _ f2 upEvs hinit
  split at hfull
  · exact absurd hfull (by simp)
  · rename_i r3 passes3 hloop
    simp only [hloop] at hfull ⊢
    rcases hu : (unlock_external_images { r3 with
        color_render_targets := r3.color_render_targets.reverse,
        alpha_render_targets := r3.alpha_render_targets.reverse }).2 with e | r4
    · simp only [hu] at hfull
      exact absurd hfull (by simp)
    simp only [hu] at hfull ⊢
    cases hfull
    obtain ⟨hutrace, _⟩ := unlock_external_images_ok _ rr hu
    have hpf2 : p ∈ f2.passes := by
      rw [hfp]
      exact hp2
    obtain ⟨t1', tp, t2', hsplit, hfilter⟩ :=
      runPasses_clears _ f2.passes r2 _ _ r3 passes3 p hpf2 hfb hcid hloop
    refine ⟨(update_deferred_resolves r f).1 ++ (allocatePasses r1 f1.passes).1
      ++ initPassTextures f1.cache_size passes2 ++ upEvs ++ t1', tp,
      t2' ++ (unlock_external_images { r3 with
        color_render_targets := r3.color_render_targets.reverse,
        alpha_render_targets := r3.alpha_render_targets.reverse }).1, ?_, ?_⟩
    · rw [hsplit]
      simp [List.append_assoc]
    · rw [hfilter, hcf2, hcf1, hcc2, hcc1, framebufferClearColor_eq]
      have hbg : f2.background_color = f.background_color := by
        rw [hfbg]
        exact hbg1
      have hws : f2.window_size = f.window_size := by
        rw [hfws]
        exact hws1
      rw [hbg, hws1]

/-- Witness for C8: with the clear-framebuffer option disabled but a 50x50
window inside a 100x100 framebuffer, the framebuffer pass still clears —
with the frame's background colour. -/
theorem c8_framebuffer_clear_witness :
    ∃ t1 tp t2,
      (draw_tile_frame c8Renderer c8Frame (100, 100)).1 = t1 ++ tp ++ t2
      ∧ tp.filter Event.isClearTarget
          = List.replicate c8Pass.color_targets.length
              (Event.clear_target
                (if c8Renderer.clear_framebuffer
                    || (decide (c8Frame.window_size.1 < 100)
                        || decide (c8Frame.window_size.2 < 100)) then
                   some (c8Frame.background_color.getD c8Renderer.clear_color)
                 else none) (some 1)) :=
  c8_framebuffer_clear c8Renderer c8Frame (100, 100) c8Pass (by decide) rfl rfl
    rfl rfl rfl (by decide)

end WR

